import Mathlib

/-!
Verification of the eligibility matching / scoring engine of the DrugTrial
repository (src/backend/agents/eligibility_matcher.py) against its
specification.

The Python source is shallowly embedded below.  Conventions used throughout:

* Python `float` arithmetic is modelled by exact fraction arithmetic on the
  type `Frac` (an integer numerator with a positive integer denominator,
  not necessarily reduced).  All numeric constants appearing in the source
  (0.85, 0.15, score weights, thresholds, ...) are exact decimals, so no
  claim below depends on binary floating-point rounding.
* Python `round(x, 3)` is modelled as `⌊1000·x + 1/2⌋ / 1000` (round half
  up).  Python rounds ties to even, but a tie can only occur when the
  fourth decimal of the exact value is 5 and no property proved below
  depends on tie behaviour.
* `None`-able columns and optional attributes are modelled with `Option`.
* The database session is modelled as an explicit `DB` value holding the
  stored rows; the "current date" (`date.today()` / `datetime.now()`) is an
  explicit `PDate` parameter threaded through the evaluation.
* Python exceptions that the source does not catch are modelled with
  `Except String`, the string naming the exception class.
-/

/-- Exact fraction: numerator over a positive denominator (not reduced).
Models a Python float / numeric value. -/
structure Frac where
  num : Int
  den : Int
  dpos : 0 < den

instance : DecidableEq Frac := fun a b =>
  if h : a.num = b.num ∧ a.den = b.den then
    .isTrue (by cases a; cases b; simp_all)
  else
    .isFalse (by rintro rfl; exact h ⟨rfl, rfl⟩)

deriving instance DecidableEq for Except

/-- Semantic value of a `Frac` as a rational number. -/
def Frac.toRat (a : Frac) : ℚ := (a.num : ℚ) / (a.den : ℚ)

def Frac.ofInt (n : Int) : Frac := ⟨n, 1, one_pos⟩

def Frac.add (a b : Frac) : Frac :=
  ⟨a.num * b.den + b.num * a.den, a.den * b.den, mul_pos a.dpos b.dpos⟩

def Frac.sub (a b : Frac) : Frac :=
  ⟨a.num * b.den - b.num * a.den, a.den * b.den, mul_pos a.dpos b.dpos⟩

def Frac.mul (a b : Frac) : Frac :=
  ⟨a.num * b.num, a.den * b.den, mul_pos a.dpos b.dpos⟩

/-- Boolean `a ≤ b` on fractions (valid because denominators are positive). -/
def Frac.leB (a b : Frac) : Bool := decide (a.num * b.den ≤ b.num * a.den)

/-- Boolean `a < b`. -/
def Frac.ltB (a b : Frac) : Bool := decide (a.num * b.den < b.num * a.den)

/-- Boolean numeric equality `a == b` (Python float equality). -/
def Frac.eqvB (a b : Frac) : Bool := decide (a.num * b.den = b.num * a.den)

/-- Python `min(a, b)`: returns the first argument on ties. -/
def Frac.minF (a b : Frac) : Frac := if Frac.leB a b then a else b

/-- Python `max(a, b)`: returns the first argument on ties. -/
def Frac.maxF (a b : Frac) : Frac := if Frac.leB b a then a else b

/-- `a / n` for a positive count `n`; the `else` branch is unreachable at
every call site (the source guards each such division by `if n > 0`). -/
def Frac.divByNat (a : Frac) (n : Nat) : Frac :=
  if h : 0 < n then ⟨a.num, a.den * n, mul_pos a.dpos (by exact_mod_cast h)⟩
  else Frac.ofInt 0

/-- `a / b` for natural counts with `b` guarded positive at call sites. -/
def fracNatDiv (a b : Nat) : Frac :=
  if h : 0 < b then ⟨a, b, by exact_mod_cast h⟩ else Frac.ofInt 0

/-- `a / b` for an integer numerator over a natural count. -/
def fracIntDivNat (a : Int) (b : Nat) : Frac :=
  if h : 0 < b then ⟨a, b, by exact_mod_cast h⟩ else Frac.ofInt 0

/-- Python `round(x, 3)` (round half up; see the header note on ties):
`⌊1000x + 1/2⌋ / 1000 = ⌊(2000·num + den) / (2·den)⌋ / 1000`. -/
def Frac.round3 (a : Frac) : Frac :=
  ⟨(2000 * a.num + a.den) / (2 * a.den), 1000, by norm_num⟩

/-- Python `round(x, 2)`. -/
def Frac.round2 (a : Frac) : Frac :=
  ⟨(200 * a.num + a.den) / (2 * a.den), 100, by norm_num⟩

/-- Python `min(iterable, default=d)` over fraction lists. -/
def pyMinList (l : List Frac) (d : Frac) : Frac :=
  match l with
  | [] => d
  | x :: xs => xs.foldl Frac.minF x

/-- Python `max(iterable, default=d)` over fraction lists. -/
def pyMaxList (l : List Frac) (d : Frac) : Frac :=
  match l with
  | [] => d
  | x :: xs => xs.foldl Frac.maxF x

def fracSum (l : List Frac) : Frac := l.foldl Frac.add (Frac.ofInt 0)

-- ── Frac / ℚ transfer lemmas ───────────────────────────────────────────

theorem Frac.den_ratPos (a : Frac) : (0:ℚ) < (a.den : ℚ) := by exact_mod_cast a.dpos

theorem Frac.toRat_ofInt (n : Int) : (Frac.ofInt n).toRat = (n : ℚ) := by
  simp [Frac.ofInt, Frac.toRat]

theorem Frac.toRat_add (a b : Frac) : (Frac.add a b).toRat = a.toRat + b.toRat := by
  have ha := a.den_ratPos
  have hb := b.den_ratPos
  simp only [Frac.add, Frac.toRat]
  push_cast
  field_simp

theorem Frac.toRat_sub (a b : Frac) : (Frac.sub a b).toRat = a.toRat - b.toRat := by
  have ha := a.den_ratPos
  have hb := b.den_ratPos
  simp only [Frac.sub, Frac.toRat]
  push_cast
  field_simp
  ring

theorem Frac.toRat_mul (a b : Frac) : (Frac.mul a b).toRat = a.toRat * b.toRat := by
  have ha := a.den_ratPos
  have hb := b.den_ratPos
  simp only [Frac.mul, Frac.toRat]
  push_cast
  field_simp

theorem Frac.leB_iff (a b : Frac) : Frac.leB a b = true ↔ a.toRat ≤ b.toRat := by
  have ha := a.den_ratPos
  have hb := b.den_ratPos
  simp only [Frac.leB, decide_eq_true_eq, Frac.toRat]
  rw [div_le_div_iff ha hb]
  exact ⟨fun h => by exact_mod_cast h, fun h => by exact_mod_cast h⟩

theorem Frac.ltB_iff (a b : Frac) : Frac.ltB a b = true ↔ a.toRat < b.toRat := by
  have ha := a.den_ratPos
  have hb := b.den_ratPos
  simp only [Frac.ltB, decide_eq_true_eq, Frac.toRat]
  rw [div_lt_div_iff ha hb]
  exact ⟨fun h => by exact_mod_cast h, fun h => by exact_mod_cast h⟩

theorem intDiv_eq_floor (p q : ℤ) (hq : 0 < q) : p / q = ⌊(p : ℚ) / (q : ℚ)⌋ := by
  have h2 : ((q.toNat : ℤ)) = q := Int.toNat_of_nonneg hq.le
  have h1 := Rat.floor_intCast_div_natCast p q.toNat
  have h3 : ((q.toNat : ℕ) : ℚ) = (q : ℚ) := by exact_mod_cast congrArg (fun z : ℤ => (z : ℚ)) h2
  rw [h3] at h1
  rw [h1, h2]

theorem Frac.round3_toRat (a : Frac) :
    (Frac.round3 a).toRat = ((⌊a.toRat * 1000 + 1/2⌋ : ℤ) : ℚ) / 1000 := by
  have hd := a.den_ratPos
  have hq : (0:ℤ) < 2 * a.den := by have := a.dpos; omega
  have key : ((2000 * a.num + a.den : ℤ) : ℚ) / ((2 * a.den : ℤ) : ℚ) = a.toRat * 1000 + 1/2 := by
    unfold Frac.toRat
    push_cast
    field_simp
    ring
  simp only [Frac.round3, Frac.toRat]
  rw [intDiv_eq_floor _ _ hq, key]
  simp only [Frac.toRat]
  norm_num

theorem Frac.round3_mono {a b : Frac} (h : a.toRat ≤ b.toRat) :
    (Frac.round3 a).toRat ≤ (Frac.round3 b).toRat := by
  rw [Frac.round3_toRat, Frac.round3_toRat]
  have : ⌊a.toRat * 1000 + 1/2⌋ ≤ ⌊b.toRat * 1000 + 1/2⌋ := by
    apply Int.floor_le_floor
    nlinarith
  have h2 : ((⌊a.toRat * 1000 + 1/2⌋ : ℤ) : ℚ) ≤ ((⌊b.toRat * 1000 + 1/2⌋ : ℤ) : ℚ) := by
    exact_mod_cast this
  linarith

/-- If `b` exceeds `a` by at least one thousandth, rounding to three
decimals preserves strictness. -/
theorem Frac.round3_strict {a b : Frac} (h : a.toRat + 1/1000 ≤ b.toRat) :
    (Frac.round3 a).toRat < (Frac.round3 b).toRat := by
  rw [Frac.round3_toRat, Frac.round3_toRat]
  have : ⌊a.toRat * 1000 + 1/2⌋ + 1 ≤ ⌊b.toRat * 1000 + 1/2⌋ := by
    have h1 : ⌊a.toRat * 1000 + 1/2 + 1⌋ ≤ ⌊b.toRat * 1000 + 1/2⌋ := by
      apply Int.floor_le_floor
      nlinarith
    rw [Int.floor_add_one] at h1
    exact h1
  have h2 : ((⌊a.toRat * 1000 + 1/2⌋ : ℤ) : ℚ) + 1 ≤ ((⌊b.toRat * 1000 + 1/2⌋ : ℤ) : ℚ) := by
    exact_mod_cast this
  linarith

theorem Frac.minF_le_right (a b : Frac) : (Frac.minF a b).toRat ≤ b.toRat := by
  unfold Frac.minF
  by_cases h : Frac.leB a b = true
  · rw [if_pos h]
    exact (Frac.leB_iff a b).mp h
  · rw [if_neg h]

theorem Frac.const_toRat (n : Int) (d : Int) (h : 0 < d) :
    (Frac.mk n d h).toRat = (n : ℚ) / (d : ℚ) := rfl

-- ── String helpers (Python string semantics) ───────────────────────────

/-- `needle` occurs as a contiguous substring of `hay` (Python `in`). -/
def subLi (needle : List Char) : List Char → Bool
  | [] => needle.isEmpty
  | c :: rest => needle.isPrefixOf (c :: rest) || subLi needle rest

/-- Python `needle in hay` for strings. -/
def hasSubstr (hay needle : String) : Bool := subLi needle.toList hay.toList

/-- `str.lower()` (ASCII case mapping, as in the data handled here). -/
def strLower (s : String) : String := ⟨s.toList.map Char.toLower⟩

/-- `str.upper()`. -/
def strUpper (s : String) : String := ⟨s.toList.map Char.toUpper⟩

/-- `s[:n]` (slicing by characters). -/
def strTake (s : String) (n : Nat) : String := ⟨s.toList.take n⟩

/-- `s[n:]`. -/
def strDrop (s : String) (n : Nat) : String := ⟨s.toList.drop n⟩

def strLen (s : String) : Nat := s.toList.length

/-- `str.startswith`. -/
def strStartsWith (s pfx : String) : Bool := pfx.toList.isPrefixOf s.toList

def splitWhenLi (p : Char → Bool) : List Char → List Char → List String
  | [], acc => [⟨acc.reverse⟩]
  | c :: rest, acc =>
    if p c then ⟨acc.reverse⟩ :: splitWhenLi p rest [] else splitWhenLi p rest (c :: acc)

/-- Split at every character satisfying `p`, keeping empty pieces. -/
def splitWhen (p : Char → Bool) (s : String) : List String := splitWhenLi p s.toList []

/-- Python `s.split(sep)` for a one-character separator (keeps empty pieces). -/
def strSplitOnChar (sep : Char) (s : String) : List String := splitWhen (fun c => c == sep) s

/-- Python `sep.join(l)`. -/
def joinWith (sep : String) : List String → String
  | [] => ""
  | s :: rest => rest.foldl (fun acc x => acc ++ sep ++ x) s

/-- Python truthiness of an optional string column (None and "" are falsy). -/
def truthyS : Option String → Bool
  | none => false
  | some s => decide (s ≠ "")

/-- Python `a or b` where `b` is a plain string (returns `b` when `a` is
None or empty). -/
def pyOrD (a : Option String) (b : String) : String :=
  match a with
  | some s => if s = "" then b else s
  | none => b

/-- Python `a or b` for two optional strings. -/
def pyOr2 (a b : Option String) : Option String := if truthyS a then a else b

/-- `o` if set, else `""` — Python `(x or '')`. -/
def optS (o : Option String) : String := pyOrD o ""

/-- Python `str.strip()` (whitespace from both ends). -/
def pyStrip (s : String) : String :=
  ⟨((s.toList.dropWhile Char.isWhitespace).reverse.dropWhile Char.isWhitespace).reverse⟩

/-- Strip any of the given characters from both ends (Python `str.strip(chars)`). -/
def stripCharsBoth (cs : List Char) (s : String) : String :=
  ⟨((s.toList.dropWhile (· ∈ cs)).reverse.dropWhile (· ∈ cs)).reverse⟩

/-- Remove every occurrence of the given characters (models `re.sub('[..]','',s)`). -/
def removeChars (cs : List Char) (s : String) : String :=
  ⟨s.toList.filter (fun c => ¬ c ∈ cs)⟩

/-- Python `str.split()` with no argument: split on whitespace runs. -/
def pySplitWs (s : String) : List String :=
  (splitWhen Char.isWhitespace s).filter (fun t => t ≠ "")

/-- `re.split(r'\W+', s)`: split on runs of non-word characters (pieces of
word characters; possibly-empty edge pieces are filtered by length at the
call site exactly as in the source). -/
def splitNonWord (s : String) : List String :=
  splitWhen (fun c => !(c.isAlphanum || c == '_')) s

def digitsVal (cs : List Char) : Nat :=
  cs.foldl (fun a c => a * 10 + (c.toNat - 48)) 0

/-- Python `float(s)` on an already-stripped string, for decimal notation
(optional sign, digits, optional fractional part).  Exponent and inf/nan
spellings never occur in the data handled here and are not modelled:
they would parse in Python but no claim depends on them. -/
def pyFloat? (s : String) : Option Frac :=
  let cs := s.toList
  let (sgn, cs1) :=
    match cs with
    | '-' :: rest => ((-1 : Int), rest)
    | '+' :: rest => ((1 : Int), rest)
    | _ => ((1 : Int), cs)
  let intPart := cs1.takeWhile Char.isDigit
  let rest := cs1.dropWhile Char.isDigit
  match rest with
  | [] =>
    if intPart.isEmpty then none
    else some ⟨sgn * digitsVal intPart, 1, one_pos⟩
  | '.' :: frac =>
    if frac.all Char.isDigit ∧ ¬ (intPart.isEmpty ∧ frac.isEmpty) then
      some ⟨sgn * (digitsVal intPart * (10 ^ frac.length) + digitsVal frac),
            (10 : Int) ^ frac.length, by positivity⟩
    else none
  | _ => none

/-- Python `float(x)` on an optional value: `float(None)` raises and every
call site catches it, so the caller treats `none` as a parse failure. -/
def floatOfOptStr? (v : Option String) : Option Frac :=
  match v with
  | some s => pyFloat? s
  | none => none

/-- Python `int(f)`: truncation toward zero. -/
def pyTruncF (a : Frac) : Int :=
  if 0 ≤ a.num then a.num / a.den else -((-a.num) / a.den)

-- ── Dates ──────────────────────────────────────────────────────────────

/-- A calendar date (`datetime.date`). -/
structure PDate where
  y : Int
  m : Nat
  d : Nat
deriving DecidableEq, Repr

/-- `(today.month, today.day) < (birth.month, birth.day)` lexicographically. -/
def beforeBirthday (today b : PDate) : Bool :=
  today.m < b.m || (today.m = b.m && today.d < b.d)

/-- Strict lexicographic date order. -/
def dateLtB (a b : PDate) : Bool :=
  a.y < b.y || (a.y = b.y && (a.m < b.m || (a.m = b.m && a.d < b.d)))

def dateLeB (a b : PDate) : Bool := dateLtB a b || a == b

def isLeapYear (y : Int) : Bool := (y % 4 = 0 && y % 100 ≠ 0) || y % 400 = 0

def daysInMonth (y : Int) (m : Nat) : Nat :=
  if m = 2 then (if isLeapYear y then 29 else 28)
  else if m = 4 ∨ m = 6 ∨ m = 9 ∨ m = 11 then 30
  else 31

/-- `d - relativedelta(months=k)`: month arithmetic with the day clamped to
the target month's length. -/
def subMonths (d : PDate) (k : Int) : PDate :=
  let tot : Int := d.y * 12 + ((d.m : Int) - 1) - k
  let y := Int.fdiv tot 12
  let m := (tot - 12 * y).toNat + 1
  ⟨y, m, min d.d (daysInMonth y m)⟩

-- ── Data model (backend/db_models.py, fields read by the matcher) ──────

/-- `patients` row (columns the matcher reads).  `birthdate` is declared
NOT NULL in the schema but the matcher still guards `if not patient.birthdate`,
so it is modelled as optional. -/
structure PatientR where
  id : String
  birthdate : Option PDate
  gender : Option String
deriving DecidableEq, Repr

/-- `conditions` row. -/
structure ConditionR where
  patient_id : String
  code : Option String
  description : Option String
  scope : Option String
deriving DecidableEq, Repr

/-- `medications` row. -/
structure MedicationR where
  patient_id : String
  description : Option String
deriving DecidableEq, Repr

/-- `observations` row. -/
structure ObservationR where
  patient_id : String
  code : Option String
  description : Option String
  value : Option String
  units : Option String
  observation_date : Option PDate
deriving DecidableEq, Repr

/-- `allergies` row (fields read by `check_allergy_criteria`). -/
structure AllergyR where
  patient_id : String
  description : Option String
  category : Option String
  reaction1 : Option String
deriving DecidableEq, Repr

/-- `immunizations` row. -/
structure ImmunizationR where
  patient_id : String
  description : Option String
deriving DecidableEq, Repr

/-- A JSON value stored under `structured_data['value_list']`.  The
extraction agent writes a list of drug-name strings; `notIterable` models a
malformed scalar (e.g. a JSON number), over which Python's
`for d in drug_list` raises `TypeError`.  (A scalar is modelled as truthy;
the falsy scalars 0/0.0 never occur as a drug list.) -/
inductive PyList where
  | strs (l : List String)
  | notIterable
deriving DecidableEq, Repr

/-- Python truthiness of an optional `value_list`. -/
def truthyPL : Option PyList → Bool
  | none => false
  | some (.strs l) => decide (l ≠ [])
  | some .notIterable => true

mutual

/-- A compound node handed to `evaluate_compound`: a dict with optional
`logic` / `group_logic` keys and a `children` list.  `none` models an
absent key (the source reads keys with `dict.get`). -/
inductive CNode where
  | mk (logic : Option String) (group_logic : Option String) (children : List CChild)

/-- A child of a compound node: an inline nested dict, a criterion id
(int; numeric-string ids coerce to the same int key via
`int(child) if str(child).isdigit() else child` in the source), or a value
of any other type (which the source maps to a `missing_data` result). -/
inductive CChild where
  | inline (n : CNode)
  | ref (i : Int)
  | other

end

def CNode.logic : CNode → Option String
  | .mk l _ _ => l

def CNode.group_logic : CNode → Option String
  | .mk _ g _ => g

def CNode.children : CNode → List CChild
  | .mk _ _ cs => cs

/-- The `structured_data` JSON blob: the keys the matcher reads, typed.
`child_node` models the case where the blob itself carries a truthy
`children` key (plus its `logic`/`group_logic`), in which case
`_evaluate_criterion` is bypassed and the blob is evaluated as a compound
node; by convention it is `some n` only when that `children` list is
non-empty (truthy). -/
structure StructuredData where
  field : Option String := none
  value_list : Option PyList := none
  negated : Bool := false
  varName : Option String := none
  entity : Option String := none
  temporal_window : Option Int := none
  applies_to : Option String := none
  child_node : Option CNode := none

/-- `eligibility_criteria` row (columns the matcher reads). `text` is
modelled as a plain string: the extraction step always stores the
criterion text. -/
structure Criterion where
  id : Int
  trial_id : Int
  criterion_type : Option String
  text : String
  category : Option String
  operator : Option String
  value : Option String
  unit : Option String
  scope : Option String
  structured_data : Option StructuredData
  group_id : Option String
  group_logic : Option String

/-- Per-trial weight override: `trial.matching_config['weights']`, a dict
whose present keys override the matcher defaults (`dict.update`). -/
structure WOverride where
  inclusion : Option Frac := none
  exclusion : Option Frac := none
  data : Option Frac := none
  nlp : Option Frac := none

/-- `clinical_trials` row: the only column the matcher reads beyond `id`
is `matching_config`; `weights_override` is `matching_config['weights']`
when `matching_config` is a dict carrying one, else `none`. -/
structure Trial where
  id : Int
  weights_override : Option WOverride

/-- The scoring weights dict. -/
structure Weights where
  inclusion : Frac
  exclusion : Frac
  data : Frac
  nlp : Frac
deriving DecidableEq

/-- Constructor defaults: `{'inclusion':0.50,'exclusion':0.25,'data':0.15,'nlp':0.10}`. -/
def defaultWeights : Weights :=
  ⟨⟨1, 2, by norm_num⟩, ⟨1, 4, by norm_num⟩, ⟨3, 20, by norm_num⟩, ⟨1, 10, by norm_num⟩⟩

/-- `current_weights.update(trial.matching_config.get('weights', {}))`. -/
def mergeW (w : Weights) (o : WOverride) : Weights :=
  ⟨o.inclusion.getD w.inclusion, o.exclusion.getD w.exclusion,
   o.data.getD w.data, o.nlp.getD w.nlp⟩

/-- The stored data visible to one evaluation run. -/
structure DB where
  patients : List PatientR
  conditions : List ConditionR
  medications : List MedicationR
  observations : List ObservationR
  allergies : List AllergyR
  immunizations : List ImmunizationR
  criteria : List Criterion
  trials : List Trial

/-- The per-patient in-memory bundle. -/
structure PatientData where
  patient : PatientR
  conditions : List ConditionR
  medications : List MedicationR
  observations : List ObservationR
  allergies : List AllergyR
  immunizations : List ImmunizationR
deriving DecidableEq, Repr

/-- One criterion result dict.  The display-only keys of the source
(`observed`, a compound's `child_results`/`logic`, the lab `met`/`value`/
`unit`/`date`) are not carried: nothing downstream of `_evaluate_criterion`
reads them (routing and scoring read only `status`, `confidence` and
`criterion_id`). -/
structure CritResult where
  criterion_id : Option Int := none
  status : String
  confidence : Frac
  administrative : Bool := false
deriving DecidableEq

-- ── Utility methods (EligibilityMatcher, lines 51-83) ──────────────────

/-- `EligibilityMatcher.calculate_age` (source lines 51-58); `today` is the
explicit "now" (`on_date or date.today()`). -/
def calculate_age (birthdate : Option PDate) (today : PDate) : Option Int :=
  match birthdate with
  | none => none
  | some b => some (today.y - b.y - (if beforeBirthday today b then 1 else 0))

/-- The integer age of a patient with a known birthdate. -/
def ageVal (b : PDate) (today : PDate) : Int :=
  today.y - b.y - (if beforeBirthday today b then 1 else 0)

/-- `EligibilityMatcher.parse_numeric_value` (lines 60-74): strip, drop
`%` and `,`, peel a leading comparator, then `float(...)`. -/
def parse_numeric_value (s? : Option String) : Option Frac × Option String :=
  match s? with
  | none => (none, none)
  | some s0 =>
    let s := removeChars [',' ] (removeChars ['%'] (pyStrip s0))
    let (comp, s2) :=
      if 2 ≤ strLen s ∧ (strTake s 2 = ">=" ∨ strTake s 2 = "<=" ∨ strTake s 2 = "==") then
        (some (strTake s 2), pyStrip (strDrop s 2))
      else if s ≠ "" ∧ (strTake s 1 = "<" ∨ strTake s 1 = ">" ∨ strTake s 1 = "=") then
        (some (strTake s 1), pyStrip (strDrop s 1))
      else (none, s)
    match pyFloat? s2 with
    | some q => (some q, comp)
    | none => (none, none)

/-- `EligibilityMatcher._is_administrative_category`. -/
def isAdministrativeCategory (cat : String) : Bool :=
  cat = "CONSENT_REQUIREMENT" || cat = "CONTRACEPTION"

/-- The `VAGUE_EXCLUSION_PHRASES` module constant. -/
def vaguePhrases : List String :=
  ["any other", "in the opinion of", "may interfere", "otherwise unsuitable",
   "clinically significant", "considered clinically", "investigator will review",
   "likely to interfere", "that in the opinion", "upon his/her medical judgment",
   "the investigator will review", "the investigator will decide",
   "upon his/her", "medical judgment will decide"]

/-- `EligibilityMatcher._is_vague_exclusion`. -/
def isVagueExclusion (text : String) : Bool :=
  vaguePhrases.any (fun p => hasSubstr (strLower text) p)

-- ── Individual check methods (lines 102-237) ───────────────────────────

/-- `check_age_criteria` (lines 102-110).  `calculate_age` is called with
no `on_date`, hence against `today`. -/
def check_age_criteria (p : PatientR) (min_age max_age : Option Int) (today : PDate) : Bool :=
  match p.birthdate with
  | none => false
  | some b =>
    let age := ageVal b today
    if (match min_age with | some m => decide (age < m) | none => false) then false
    else if (match max_age with | some m => decide (age > m) | none => false) then false
    else true

/-- `check_condition_criteria` (lines 112-116). -/
def check_condition_criteria (conditions : List ConditionR) (required_code : String)
    (scope : String) : Bool :=
  conditions.any (fun c => c.code == some required_code && pyOrD c.scope "personal" == scope)

/-- `check_medication_criteria` (lines 118-130).  Iterating a non-iterable
`drug_list` raises `TypeError` (uncaught in the source). -/
def check_medication_criteria (medications : List MedicationR) (drug_name : Option String)
    (drug_list : Option PyList) (negated : Bool) : Except String Bool :=
  if !truthyS drug_name && !truthyPL drug_list then .ok (!negated)
  else
    let meds_text := joinWith " " (medications.map (fun m => strLower (optS m.description)))
    if truthyPL drug_list then
      match drug_list with
      | some (.strs l) =>
        let found := l.any (fun d => hasSubstr meds_text (strLower d))
        .ok (if negated then !found else found)
      | _ => .error "TypeError"
    else if truthyS drug_name then
      let found := hasSubstr meds_text (pyStrip (strLower (optS drug_name)))
      .ok (if negated then !found else found)
    else .ok (!negated)

/-- `check_allergy_criteria` (lines 132-143). -/
def check_allergy_criteria (allergies : List AllergyR) (allergen : Option String) : Bool :=
  if !truthyS allergen then false
  else
    let term := pyStrip (strLower (optS allergen))
    allergies.any (fun a =>
      hasSubstr (strLower (optS a.description)) term ||
      hasSubstr (strLower (optS a.category)) term ||
      hasSubstr (strLower (optS a.reaction1)) term)

/-- The `ignore_words` stop-word set of `check_keyword_criteria`. -/
def ignoreWords : List String :=
  ["the", "a", "an", "at", "in", "of", "and", "or", "for", "with",
   "on", "is", "to", "be", "by", "that", "who", "had", "any", "must",
   "not", "no", "are", "were", "been", "has", "have", "may", "can",
   "will", "should", "other", "all", "their", "this", "from"]

/-- The punctuation set stripped from tokens: `,.;:()[]{}!?"'`
(the braces, quote and apostrophe written via their code points). -/
def punctChars : List Char :=
  [',', '.', ';', ':', '(', ')', '[', ']', Char.ofNat 123, Char.ofNat 125,
   '!', '?', Char.ofNat 34, Char.ofNat 39]

def stripTok (t : String) : String := stripCharsBoth punctChars t

/-- The significant-token set of the keyword (a Python set: deduplicated). -/
def kTokensOf (k_lower : String) : List String :=
  ((((pySplitWs k_lower).map stripTok).filter (fun t => ¬ t ∈ ignoreWords)).filter
    (fun t => t ≠ "")).dedup

/-- The token set of a record description. -/
def tTokensOf (t_lower : String) : List String :=
  ((pySplitWs t_lower).map stripTok).dedup

/-- The inner `has_overlap` closure of `check_keyword_criteria`. -/
def hasOverlap (k_lower : String) (ktoks : List String) (min_overlap : Nat)
    (text : Option String) : Bool :=
  match text with
  | none => false
  | some t =>
    if t = "" then false
    else
      let tl := strLower t
      if hasSubstr tl k_lower then true
      else
        let tt := tTokensOf tl
        decide ((ktoks.filter (fun x => x ∈ tt)).length ≥ min_overlap)

/-- `check_keyword_criteria` (lines 145-185): search all record types'
descriptions for a significant-word overlap with the keyword. -/
def check_keyword_criteria (pd : PatientData) (keyword : Option String)
    (min_overlap : Nat) : Bool :=
  match keyword with
  | none => false
  | some k =>
    if k = "" then false
    else
      let kl := strLower k
      let kt := kTokensOf kl
      if kt.length < min_overlap then false
      else
        pd.conditions.any (fun r => hasOverlap kl kt min_overlap r.description) ||
        pd.medications.any (fun r => hasOverlap kl kt min_overlap r.description) ||
        pd.observations.any (fun r => hasOverlap kl kt min_overlap r.description) ||
        pd.allergies.any (fun r => hasOverlap kl kt min_overlap r.description) ||
        pd.immunizations.any (fun r => hasOverlap kl kt min_overlap r.description)

/-- Key used by `max(..., key=lambda x: x.observation_date or date.min)`. -/
def obsDateKey (o : ObservationR) : PDate := o.observation_date.getD ⟨1, 1, 1⟩

/-- Python `max(l, key=obsDateKey)` (first maximal element), `none` on `[]`. -/
def maxByDate : List ObservationR → Option ObservationR
  | [] => none
  | o :: os => some (os.foldl (fun best x =>
      if dateLtB (obsDateKey best) (obsDateKey x) then x else best) o)

/-- `_find_observation_value` (lines 227-237). -/
def findObs (observations : List ObservationR) (search_terms : List String) :
    Option ObservationR :=
  maxByDate (observations.filter (fun o =>
    search_terms.any (fun t => hasSubstr (strLower (optS o.description)) t)))

/-- Comparator application for `check_lab_criteria`'s `ops` dict
(keys `>,>=,<,<=,==`; an unknown operator yields the default `False`). -/
def applyOp5 (op : String) (a b : Frac) : Bool :=
  if op = ">" then Frac.ltB b a
  else if op = ">=" then Frac.leB b a
  else if op = "<" then Frac.ltB a b
  else if op = "<=" then Frac.leB a b
  else if op = "==" then Frac.eqvB a b
  else false

/-- Comparator application for the WEIGHT / EKG `ops` dicts
(keys `>,>=,<,<=` only). -/
def applyOp4 (op : String) (a b : Frac) : Bool :=
  if op = ">" then Frac.ltB b a
  else if op = ">=" then Frac.leB b a
  else if op = "<" then Frac.ltB a b
  else if op = "<=" then Frac.leB a b
  else false

/-- Result of `check_lab_criteria`; only the keys read by the caller
(`status`, `confidence`) plus `met` are carried (see `CritResult`). -/
structure LabOutcome where
  status : String
  met : Bool
  confidence : Frac
deriving DecidableEq

/-- `check_lab_criteria` (lines 187-225).  `dateutil.relativedelta` is
modelled as importable (it is a hard dependency of the deployment); with
it absent the window filter would simply be skipped. -/
def check_lab_criteria (observations : List ObservationR) (lab_name : Option String)
    (operator : String) (threshold : Frac) (window_months : Option Int)
    (now : PDate) : LabOutcome :=
  let term := pyStrip (strLower (optS lab_name))
  let m0 :=
    if truthyS lab_name ∧ pyStrip (optS lab_name) ≠ "" then
      observations.filter (fun o => truthyS o.code && o.code == lab_name)
    else []
  let m1 :=
    if m0.isEmpty ∧ truthyS lab_name then
      observations.filter (fun o => hasSubstr (strLower (optS o.description)) term)
    else m0
  let m2 :=
    match window_months with
    | some w =>
      if w ≠ 0 then
        m1.filter (fun o =>
          match o.observation_date with
          | some d => dateLeB (subMonths now w) d
          | none => false)
      else m1
    | none => m1
  match maxByDate m2 with
  | none => ⟨"missing_data", false, Frac.ofInt 0⟩
  | some latest =>
    match (parse_numeric_value latest.value).1 with
    | none => ⟨"missing_data", false, Frac.ofInt 0⟩
    | some rawVal =>
      let met := applyOp5 operator rawVal threshold
      ⟨if met then "met" else "not_met", met, ⟨19, 20, by norm_num⟩⟩

-- ── Single criterion evaluation (_evaluate_criterion, lines 459-732) ───

/-- `structured = getattr(criterion,'structured_data',None) or {}` (also
covering the non-dict-coerced-to-`{}` case). -/
def sdOf (c : Criterion) : StructuredData := c.structured_data.getD {}

def missingResult : CritResult :=
  ⟨none, "missing_data", Frac.ofInt 0, false⟩

def missingWith (cid : Option Int) : CritResult :=
  ⟨cid, "missing_data", Frac.ofInt 0, false⟩

/-- AGE handler (lines 471-496).  The whole block is wrapped in
`try/except` in the source; every possible exception there is a numeric
parse failure, modelled as the `none` flow below. -/
def evalAge (pd : PatientData) (c : Criterion) (now : PDate) : Except String CritResult :=
  let cid := some c.id
  let metOpt : Option Bool :=
    if c.operator == some "BETWEEN" && truthyS c.value then
      let v := optS c.value
      if hasSubstr v "-" then
        let parts := strSplitOnChar '-' v
        match pyFloat? (parts.headD "") with
        | none => none
        | some v1 =>
          match (match parts.drop 1 with
                 | [] => some (Frac.ofInt 999)
                 | p1 :: _ => pyFloat? p1) with
          | none => none
          | some v2 =>
            some (check_age_criteria pd.patient (some (pyTruncF v1)) (some (pyTruncF v2)) now)
      else
        match pyFloat? v with
        | none => none
        | some v1 =>
          let unitNumeric := truthyS c.unit &&
            (let r := removeChars ['.'] (optS c.unit)
             decide (r ≠ "") && r.toList.all Char.isDigit)
          match (if unitNumeric then floatOfOptStr? c.unit else some (Frac.ofInt 999)) with
          | none => none
          | some v2 =>
            some (check_age_criteria pd.patient (some (pyTruncF v1)) (some (pyTruncF v2)) now)
    else
      match floatOfOptStr? c.value with
      | none => none
      | some f =>
        let threshold := pyTruncF f
        let op := pyOrD c.operator ">"
        if op = ">=" then some (check_age_criteria pd.patient (some threshold) none now)
        else if op = "<=" then some (check_age_criteria pd.patient none (some threshold) now)
        else if op = ">" then some (check_age_criteria pd.patient (some (threshold + 1)) none now)
        else if op = "<" then some (check_age_criteria pd.patient none (some (threshold - 1)) now)
        else some false
  match metOpt with
  | some met => .ok ⟨cid, if met then "met" else "not_met", Frac.ofInt 1, false⟩
  | none => .ok (missingWith cid)

/-- WEIGHT handler (lines 499-514); exceptions (bad `float`) are caught to
`missing_data`. -/
def evalWeight (pd : PatientData) (c : Criterion) : Except String CritResult :=
  let cid := some c.id
  match findObs pd.observations ["weight", "body weight"] with
  | none => .ok (missingWith cid)
  | some obs =>
    match (parse_numeric_value obs.value).1 with
    | none => .ok (missingWith cid)
    | some rawVal =>
      match pyFloat? (pyOrD c.value "0") with
      | none => .ok (missingWith cid)
      | some threshold =>
        let met := applyOp4 (pyOrD c.operator ">") rawVal threshold
        .ok ⟨cid, if met then "met" else "not_met", ⟨19, 20, by norm_num⟩, false⟩

/-- Non-numeric EKG fallback (lines 530-533). -/
def ekgTextFallback (cid : Option Int) (obs : ObservationR) : Except String CritResult :=
  if truthyS obs.value && hasSubstr (strLower (optS obs.value)) "normal" then
    .ok ⟨cid, "met", ⟨17, 20, by norm_num⟩, false⟩
  else .ok ⟨cid, "not_met", ⟨7, 10, by norm_num⟩, false⟩

/-- EKG handler (lines 517-535). -/
def evalEkg (pd : PatientData) (c : Criterion) : Except String CritResult :=
  let cid := some c.id
  match findObs pd.observations ["ekg", "ecg", "electrocardiogram"] with
  | none => .ok (missingWith cid)
  | some obs =>
    match (parse_numeric_value obs.value).1 with
    | some rawVal =>
      if truthyS c.value then
        match pyFloat? (optS c.value) with
        | none => .ok (missingWith cid)
        | some threshold =>
          let met := applyOp4 (pyOrD c.operator "<=") rawVal threshold
          .ok ⟨cid, if met then "met" else "not_met", ⟨9, 10, by norm_num⟩, false⟩
      else ekgTextFallback cid obs
    | none => ekgTextFallback cid obs

/-- Strip the leading negation prefix (lines 554-557): the prefix test is
on the lower-cased text, the slice on the original. -/
def stripNegPfx (s : String) : String :=
  let l := strLower s
  if strStartsWith l "no history of " then strDrop s 14
  else if strStartsWith l "no family history of " then strDrop s 21
  else if strStartsWith l "no medical history of " then strDrop s 22
  else if strStartsWith l "no " then strDrop s 3
  else s

/-- CONDITION_PRESENT / DIAGNOSIS / MEDICAL_HISTORY / HISTORY handler
(lines 538-593).  The `(met, confidence)` pairs mirror the mutable
`met`/`confidence` locals of the source. -/
def evalCondition (cat : String) (pd : PatientData) (c : Criterion) : Except String CritResult :=
  let cid := some c.id
  let crit_text := c.text
  if isVagueExclusion crit_text then .ok ⟨cid, "not_met", ⟨1, 2, by norm_num⟩, false⟩
  else if strUpper (pyOrD c.operator "") = "NO" then
    let search0 := pyOrD (sdOf c).field crit_text
    let found := check_keyword_criteria pd (some (stripNegPfx search0)) 3
    .ok ⟨cid, if found then "met" else "not_met", ⟨4, 5, by norm_num⟩, false⟩
  else
    let scope := pyOrD c.scope "personal"
    let s1 : Bool × Frac :=
      if truthyS c.value then
        let v := optS c.value
        if check_condition_criteria pd.conditions v scope then (true, Frac.ofInt 1)
        else
          let term := strLower v
          if pd.conditions.any (fun cd =>
               hasSubstr (strLower (optS cd.description)) term &&
               pyOrD cd.scope "personal" == scope) then
            (true, ⟨4, 5, by norm_num⟩)
          else (false, Frac.ofInt 1)
      else (false, Frac.ofInt 1)
    let s2 : Bool × Frac :=
      if !s1.1 && cat == "MEDICAL_HISTORY" then
        let meds_text := joinWith " "
          (pd.medications.map (fun m => (strLower (optS m.description))))
        let terms := (splitNonWord (strLower crit_text)).filter (fun w => decide (4 ≤ w.length))
        if !terms.isEmpty && (terms.take 5).any (fun t => hasSubstr meds_text t) then
          (true, ⟨7, 10, by norm_num⟩)
        else s1
      else s1
    let s3 : Bool × Frac :=
      if !s2.1 then
        let is_excl := c.criterion_type == some "exclusion"
        if check_keyword_criteria pd (some crit_text) (if is_excl then 3 else 2) then
          (true, ⟨7, 10, by norm_num⟩)
        else s2
      else s2
    .ok ⟨cid, if s3.1 then "met" else "not_met", s3.2, false⟩

/-- CONDITION_ABSENT handler (lines 596-605). -/
def evalConditionAbsent (pd : PatientData) (c : Criterion) : Except String CritResult :=
  let cid := some c.id
  let search := pyOrD (sdOf c).field c.text
  let found := check_keyword_criteria pd (some search) 3
  .ok ⟨cid, if found then "met" else "not_met", ⟨4, 5, by norm_num⟩, false⟩

/-- MEDICATION / MEDICATION_HISTORY / DRUG handler (lines 608-625). -/
def evalMedication (pd : PatientData) (c : Criterion) : Except String CritResult :=
  if isVagueExclusion c.text then .ok ⟨some c.id, "not_met", ⟨1, 2, by norm_num⟩, false⟩
  else
    match check_medication_criteria pd.medications
        (if truthyPL (sdOf c).value_list then none else c.value) (sdOf c).value_list
        ((sdOf c).negated || strUpper (pyOrD c.operator "") == "NO") with
    | .error e => .error e
    | .ok met =>
      .ok ⟨some c.id, if met then "met" else "not_met", ⟨17, 20, by norm_num⟩, false⟩

/-- Characters removed from the lab threshold by `re.sub(r'[><=±+/\-]','',·)`. -/
def labStripChars : List Char := ['>', '<', '=', '±', '+', '/', '-']

def firstCharIsDigit : Option String → Bool
  | some s => match s.toList with | ch :: _ => ch.isDigit | [] => false
  | none => false

/-- LAB_THRESHOLD (and aliases) handler (lines 628-671).  The whole block
is wrapped in `try/except`; every operation in it is total here, and the
inner threshold `try` is modelled by `getD 0`. -/
def evalLab (pd : PatientData) (c : Criterion) (now : PDate) : Except String CritResult :=
  let cid := some c.id
  let vClean := pyStrip (removeChars labStripChars (pyOrD c.value "0"))
  let threshold : Frac := if vClean = "" then Frac.ofInt 0 else (pyFloat? vClean).getD (Frac.ofInt 0)
  let n0 := pyOr2 (sdOf c).varName (sdOf c).entity
  let n1 : Option String :=
    if truthyS n0 then n0
    else if truthyS c.unit && !firstCharIsDigit c.unit then c.unit
    else some c.text
  let labName : Option String := if truthyS n1 then n1 else c.category
  let runLab : Except String CritResult :=
    let lr := check_lab_criteria pd.observations labName (pyOrD c.operator "==") threshold
      (sdOf c).temporal_window now
    .ok ⟨cid, lr.status, lr.confidence, false⟩
  if truthyS labName then
    let term := pyStrip (strLower (optS labName))
    let matching0 := pd.observations.filter (fun o => truthyS o.code && o.code == some term)
    let matching :=
      if matching0.isEmpty then
        pd.observations.filter (fun o => hasSubstr (strLower (optS o.description)) term)
      else matching0
    if matching.isEmpty then .ok (missingWith cid)
    else runLab
  else runLab

/-- ALLERGY / HYPERSENSITIVITY / CONTRAINDICATION handler (lines 674-677). -/
def evalAllergy (pd : PatientData) (c : Criterion) : Except String CritResult :=
  let cid := some c.id
  let allergen := pyOr2 c.value (some c.text)
  let met := check_allergy_criteria pd.allergies allergen
  .ok ⟨cid, if met then "met" else "not_met", ⟨9, 10, by norm_num⟩, false⟩

/-- IMMUNIZATION / VACCINE / VACCINATION handler (lines 680-686). -/
def evalImmunization (pd : PatientData) (c : Criterion) : Except String CritResult :=
  let cid := some c.id
  let vaccine := pyOr2 c.value (some c.text)
  let met :=
    if truthyS vaccine then
      let term := pyStrip (strLower (optS vaccine))
      pd.immunizations.any (fun i => hasSubstr (strLower (optS i.description)) term)
    else false
  .ok ⟨cid, if met then "met" else "not_met", ⟨17, 20, by norm_num⟩, false⟩

/-- PREGNANCY_EXCLUSION / GENDER handler (lines 689-695). -/
def evalPregnancy (pd : PatientData) (c : Criterion) : Except String CritResult :=
  let cid := some c.id
  let tl := strLower c.text
  if (hasSubstr tl "female" || hasSubstr tl "gender") && pd.patient.gender == some "M" then
    .ok ⟨cid, "not_met", Frac.ofInt 1, false⟩
  else
    let isPreg := pd.conditions.any (fun cd => hasSubstr (strLower (optS cd.description)) "pregnan")
    .ok ⟨cid, if isPreg then "met" else "not_met", ⟨9, 10, by norm_num⟩, false⟩

/-- CONSENT_REQUIREMENT handler (lines 698-699): administrative auto-pass. -/
def evalConsent (c : Criterion) : Except String CritResult :=
  .ok ⟨some c.id, "met", Frac.ofInt 1, true⟩

/-- CONTRACEPTION handler (lines 702-710);
`structured.get('applies_to', 'FEMALE').upper()`. -/
def evalContraception (pd : PatientData) (c : Criterion) : Except String CritResult :=
  if strUpper ((sdOf c).applies_to.getD "FEMALE") == "FEMALE" && pd.patient.gender == some "M" then
    .ok ⟨some c.id, "met", Frac.ofInt 1, true⟩
  else
    match findObs pd.observations ["pregnancy test", "serum pregnancy"] with
    | some o =>
      if hasSubstr (strLower (optS o.value)) "negative" then
        .ok ⟨some c.id, "met", ⟨19, 20, by norm_num⟩, false⟩
      else .ok ⟨some c.id, "not_met", ⟨7, 10, by norm_num⟩, false⟩
    | none => .ok ⟨some c.id, "not_met", ⟨7, 10, by norm_num⟩, false⟩

/-- PROCEDURE_HISTORY handler (lines 713-715). -/
def evalProcedure (pd : PatientData) (c : Criterion) : Except String CritResult :=
  let cid := some c.id
  let found := check_keyword_criteria pd (some c.text) 3
  .ok ⟨cid, if found then "met" else "not_met", ⟨7, 10, by norm_num⟩, false⟩

/-- Default fallback handler (lines 718-732). -/
def evalDefault (pd : PatientData) (c : Criterion) : Except String CritResult :=
  let cid := some c.id
  if c.criterion_type == some "exclusion" && isVagueExclusion c.text then
    .ok ⟨cid, "not_met", ⟨1, 2, by norm_num⟩, false⟩
  else
    let is_excl := c.criterion_type == some "exclusion"
    let found := check_keyword_criteria pd (pyOr2 c.value (some c.text))
      (if is_excl then 3 else 2)
    if found then .ok ⟨cid, "met", ⟨3, 5, by norm_num⟩, false⟩
    else .ok (missingWith cid)

/-- `_evaluate_criterion`: dispatch on the normalized category
(`(getattr(criterion,'category','') or '').upper()`). -/
def evalCriterion (pd : PatientData) (c : Criterion) (now : PDate) : Except String CritResult :=
  match strUpper (pyOrD c.category "") with
  | "AGE" => evalAge pd c now
  | "WEIGHT" => evalWeight pd c
  | "EKG" => evalEkg pd c
  | "CONDITION_PRESENT" => evalCondition "CONDITION_PRESENT" pd c
  | "DIAGNOSIS" => evalCondition "DIAGNOSIS" pd c
  | "MEDICAL_HISTORY" => evalCondition "MEDICAL_HISTORY" pd c
  | "HISTORY" => evalCondition "HISTORY" pd c
  | "CONDITION_ABSENT" => evalConditionAbsent pd c
  | "MEDICATION" => evalMedication pd c
  | "MEDICATION_HISTORY" => evalMedication pd c
  | "DRUG" => evalMedication pd c
  | "LAB" => evalLab pd c now
  | "LAB_THRESHOLD" => evalLab pd c now
  | "LAB_RESULT" => evalLab pd c now
  | "VITAL_SIGN" => evalLab pd c now
  | "MEASUREMENT" => evalLab pd c now
  | "OBSERVATION" => evalLab pd c now
  | "VITALS" => evalLab pd c now
  | "ALLERGY" => evalAllergy pd c
  | "HYPERSENSITIVITY" => evalAllergy pd c
  | "CONTRAINDICATION" => evalAllergy pd c
  | "IMMUNIZATION" => evalImmunization pd c
  | "VACCINE" => evalImmunization pd c
  | "VACCINATION" => evalImmunization pd c
  | "PREGNANCY_EXCLUSION" => evalPregnancy pd c
  | "GENDER" => evalPregnancy pd c
  | "CONSENT_REQUIREMENT" => evalConsent c
  | "CONTRACEPTION" => evalContraception pd c
  | "PROCEDURE_HISTORY" => evalProcedure pd c
  | _ => evalDefault pd c

-- ── Compound evaluation (evaluate_compound, lines 241-276) ─────────────

/-- `node.get('logic', node.get('group_logic', 'AND')).upper()`;
`none` models an absent key. -/
def compoundLogic (n : CNode) : String :=
  strUpper (match n.logic with
   | some s => s
   | none => match n.group_logic with | some s => s | none => "AND")

/-- The structured-data nested group of a referenced criterion: the source
recurses into `sd` when `sd and isinstance(sd, dict) and sd.get('children')`
(a truthy, i.e. non-empty, children list). -/
def sdChildNode (c : Criterion) : Option CNode :=
  match c.structured_data with
  | some sd =>
    match sd.child_node with
    | some n => if n.children.isEmpty then none else some n
    | none => none
  | none => none

/-- Resolution of one child of a compound node (lines 248-263),
parametrized by the recursive compound evaluator `evalC`.  A lookup miss
yields the inline `missing_data` result. -/
def resolveChildWith (lookup : Int → Option Criterion)
    (evalC : CNode → Except String CritResult)
    (evalL : Criterion → Except String CritResult) : CChild → Except String CritResult
  | .inline n => evalC n
  | .ref i =>
    match lookup i with
    | some crit =>
      match sdChildNode crit with
      | some n => evalC n
      | none => evalL crit
    | none => .ok missingResult
  | .other => .ok missingResult

/-- Sequencing of the child-results loop: the first exception aborts the
whole evaluation, exactly as an uncaught Python exception would. -/
def mapExcept (f : α → Except String β) : List α → Except String (List β)
  | [] => .ok []
  | x :: xs =>
    match f x with
    | .error e => .error e
    | .ok y =>
      match mapExcept f xs with
      | .error e => .error e
      | .ok ys => .ok (y :: ys)

/-- Aggregation of the child results (lines 265-276): AND is met iff all
children are met with the minimum confidence, OR iff any child is met with
the maximum confidence; an unknown logic yields `not_met` at 0.0. -/
def combineResults (logic : String) (crs : List CritResult) : CritResult :=
  if logic = "AND" then
    ⟨none, if crs.all (fun r => r.status == "met") then "met" else "not_met",
     pyMinList (crs.map (fun r => r.confidence)) (Frac.ofInt 0), false⟩
  else if logic = "OR" then
    ⟨none, if crs.any (fun r => r.status == "met") then "met" else "not_met",
     pyMaxList (crs.map (fun r => r.confidence)) (Frac.ofInt 0), false⟩
  else ⟨none, "not_met", Frac.ofInt 0, false⟩

/-- `evaluate_compound` (lines 241-276).  `fuel` models Python's recursion
limit: exhaustion raises `RecursionError` (a criterion tree can reference
itself through the lookup).  An empty-children node delegates to
`_evaluate_criterion(patient_data, node)` on the raw dict, which reaches
the default branch (a dict has no `category` attribute, so `cat` is `''`)
and crashes on the attribute read `criterion.criterion_type` —
`AttributeError`.  The display-only `child_results`/`logic` keys of the
returned dict are not carried (see `CritResult`). -/
def evalCompound : Nat → CNode → PatientData → (Int → Option Criterion) → PDate →
    Except String CritResult
  | 0, _, _, _, _ => .error "RecursionError"
  | Nat.succ fuel, node, pd, lookup, now =>
    if node.children.isEmpty then .error "AttributeError"
    else
      match mapExcept
          (resolveChildWith lookup (fun n => evalCompound fuel n pd lookup now)
            (fun c => evalCriterion pd c now)) node.children with
      | .error e => .error e
      | .ok crs => .ok (combineResults (compoundLogic node) crs)

/-- Python's default recursion limit, used as the fuel at the batch entry. -/
def recLimit : Nat := 1000

-- ── Batch evaluation (evaluate_batch, lines 280-455) ───────────────────

/-- The eligibility verdict's `reasons` dict.  Error verdicts carry only
`error`; scored verdicts carry the full breakdown. -/
structure Reasons where
  error : Option String := none
  scoring_weights : Option Weights := none
  inclusion_score : Frac := Frac.ofInt 0
  exclusion_score : Frac := Frac.ofInt 0
  data_completeness : Frac := Frac.ofInt 0
  nlp_certainty : Frac := Frac.ofInt 0
  hard_exclusions : Nat := 0
  soft_exclusions : Nat := 0
  administrative_auto_passed : Nat := 0
  inclusion_details : List (String × Bool) := []
  exclusion_details : List (String × Bool × Bool) := []
  missing_data : List Int := []
deriving DecidableEq

/-- One eligibility verdict.  Error verdicts have no `status` key. -/
structure Verdict where
  eligible : Bool
  confidence : Frac
  status : Option String := none
  reasons : Reasons
deriving DecidableEq

/-- The uniform zero-criteria configuration-error verdict (lines 283-284). -/
def noCriteriaVerdict : Verdict :=
  ⟨false, Frac.ofInt 0, none, { error := some "No eligibility criteria defined for trial" }⟩

/-- The per-patient "not found" verdict (lines 320-321). -/
def notFoundVerdict : Verdict :=
  ⟨false, Frac.ofInt 0, none, { error := some "Patient not found" }⟩

/-- Accumulator of the per-criterion loop (lines 325-331): the inclusion /
exclusion / administrative buckets keep `(text, result)` pairs in append
order; `missing`, `soft` and `hard` keep criterion ids; `processed` the
handled `group_id`s. -/
structure Buckets where
  incl : List (String × CritResult) := []
  excl : List (String × CritResult) := []
  admin : List (String × CritResult) := []
  missing : List Int := []
  soft : List Int := []
  hard : List Int := []
  processed : List String := []
deriving DecidableEq

def initBuckets : Buckets := {}

/-- Exclusion-bucket routing (lines 357-364): append the result and, when
its status is met, classify the criterion as soft or hard by its text. -/
def routeExclusion (b : Buckets) (c : Criterion) (txt : String) (r : CritResult) : Buckets :=
  if r.status == "met" then
    if hasSubstr (strLower c.text) "preferred" || hasSubstr (strLower c.text) "relative" ||
        hasSubstr (strLower c.text) "soft" then
      { b with excl := b.excl ++ [(txt, r)], soft := b.soft ++ [c.id] }
    else { b with excl := b.excl ++ [(txt, r)], hard := b.hard ++ [c.id] }
  else { b with excl := b.excl ++ [(txt, r)] }

/-- Bucket routing (lines 352-358): administrative vs inclusion vs
exclusion. -/
def routeBucket (b : Buckets) (c : Criterion) (txt : String) (r : CritResult) : Buckets :=
  if isAdministrativeCategory (strUpper (pyOrD c.category "")) then
    { b with admin := b.admin ++ [(txt, r)] }
  else if c.criterion_type == some "inclusion" then
    { b with incl := b.incl ++ [(txt, r)] }
  else routeExclusion b c txt r

/-- The missing-data list update (lines 366-367). -/
def addMissing (b : Buckets) (c : Criterion) (r : CritResult) : Buckets :=
  if r.status == "missing_data" then { b with missing := b.missing ++ [c.id] } else b

/-- Routing of one result (lines 350-367). -/
def routeResult (b : Buckets) (c : Criterion) (txt : String) (r : CritResult) : Buckets :=
  addMissing (routeBucket b c txt r) c r

/-- The display text of a compound group's result (line 342):
`f"Compound ({criterion.group_logic}): {', '.join(c.text[:30] for c in group_criteria[:3])}"`. -/
def compoundText (c : Criterion) (group_criteria : List Criterion) : String :=
  "Compound (" ++ (match c.group_logic with | some s => s | none => "None") ++ "): " ++
    joinWith ", " ((group_criteria.take 3).map (fun x => strTake x.text 30))

/-- One iteration of the per-criterion loop (lines 333-367). -/
def collectStep (full : List Criterion) (lookup : Int → Option Criterion) (pd : PatientData)
    (now : PDate) (b : Buckets) (c : Criterion) : Except String Buckets :=
  if truthyS c.group_id then
    if optS c.group_id ∈ b.processed then .ok b
    else
      match evalCompound recLimit
          (CNode.mk (some (pyOrD c.group_logic "AND")) none
            ((full.filter (fun x => x.group_id == c.group_id)).map (fun x => CChild.ref x.id)))
          pd lookup now with
      | .error e => .error e
      | .ok r =>
        .ok (routeResult { b with processed := b.processed ++ [optS c.group_id] } c
          (compoundText c (full.filter (fun x => x.group_id == c.group_id))) r)
  else
    match evalCriterion pd c now with
    | .error e => .error e
    | .ok r => .ok (routeResult b c c.text r)

/-- The per-criterion loop over a trial's criteria list. -/
def collectGo (full : List Criterion) (lookup : Int → Option Criterion) (pd : PatientData)
    (now : PDate) : List Criterion → Buckets → Except String Buckets
  | [], b => .ok b
  | c :: rest, b =>
    match collectStep full lookup pd now b c with
    | .error e => .error e
    | .ok b2 => collectGo full lookup pd now rest b2

-- ── Scoring (lines 370-436) ────────────────────────────────────────────

/-- `inclusion_score` (lines 370-372). -/
def inclusionScoreOf (b : Buckets) : Frac :=
  if 0 < b.incl.length then
    fracNatDiv ((b.incl.filter (fun e => e.2.status == "met")).length) b.incl.length
  else Frac.ofInt 0

/-- `exclusion_score = 1 - hard / max(total_exclusions, 1)` (lines 374-375). -/
def exclusionScoreOf (b : Buckets) : Frac :=
  Frac.sub (Frac.ofInt 1) (fracNatDiv b.hard.length (max b.excl.length 1))

/-- `data_completeness = (scorable - len(missing_data)) / scorable` when
`scorable > 0`, else `0.0` (lines 377-379). -/
def dataCompletenessOf (b : Buckets) : Frac :=
  let scorable := b.incl.length + b.excl.length
  if 0 < scorable then fracIntDivNat ((scorable : Int) - b.missing.length) scorable
  else Frac.ofInt 0

/-- `nlp_certainty`: mean confidence over inclusion + exclusion results,
`1.0` when there are none (lines 381-382; every result dict carries a
`confidence` key, so the `.get(...,0.9)` default never fires). -/
def nlpCertaintyOf (b : Buckets) : Frac :=
  let l := (b.incl ++ b.excl).map (fun e => e.2.confidence)
  if 0 < l.length then Frac.divByNat (fracSum l) l.length else Frac.ofInt 1

/-- `raw_confidence` (lines 385-390). -/
def rawConfidenceOf (cw : Weights) (b : Buckets) : Frac :=
  Frac.add (Frac.add (Frac.add
    (Frac.mul cw.inclusion (inclusionScoreOf b))
    (Frac.mul cw.exclusion (exclusionScoreOf b)))
    (Frac.mul cw.data (dataCompletenessOf b)))
    (Frac.mul cw.nlp (nlpCertaintyOf b))

/-- The soft-exclusion penalty (lines 392-393). -/
def rawAfterSoftOf (cw : Weights) (b : Buckets) : Frac :=
  if b.soft.isEmpty then rawConfidenceOf cw b
  else Frac.mul (rawConfidenceOf cw b) ⟨17, 20, by norm_num⟩

/-- The `is_hard` flag of an exclusion detail row (lines 430-431):
`r.get('criterion_id') in hard_exclusions_met if r.get('criterion_id') else False`. -/
def isHardDetail (r : CritResult) (hard : List Int) : Bool :=
  match r.criterion_id with
  | some i => if i ≠ 0 then decide (i ∈ hard) else false
  | none => false

/-- The decision step (lines 384-436): composite score, soft penalty,
3-decimal rounding, hard-exclusion gate, threshold tiers, and the
`reasons` breakdown. -/
def scoreVerdict (cw : Weights) (b : Buckets) : Verdict :=
  let confidence := Frac.round3 (rawAfterSoftOf cw b)
  let gated :=
    if !b.hard.isEmpty then
      (Frac.round3 (Frac.minF confidence ⟨3, 20, by norm_num⟩), "INELIGIBLE", false)
    else if Frac.leB ⟨3, 4, by norm_num⟩ confidence then
      (confidence, "HIGHLY ELIGIBLE", true)
    else if Frac.leB ⟨9, 20, by norm_num⟩ confidence then
      (confidence, "POTENTIALLY ELIGIBLE", true)
    else (confidence, "UNCERTAIN / NEEDS REVIEW", false)
  { eligible := gated.2.2
    confidence := gated.1
    status := some gated.2.1
    reasons :=
    { scoring_weights := some cw
      inclusion_score := Frac.round2 (inclusionScoreOf b)
      exclusion_score := Frac.round2 (exclusionScoreOf b)
      data_completeness := Frac.round2 (dataCompletenessOf b)
      nlp_certainty := Frac.round2 (nlpCertaintyOf b)
      hard_exclusions := b.hard.length
      soft_exclusions := b.soft.length
      administrative_auto_passed := b.admin.length
      inclusion_details := b.incl.map (fun e => (e.1, e.2.status == "met"))
      exclusion_details := b.excl.map (fun e => (e.1, e.2.status == "met", isHardDetail e.2 b.hard))
      missing_data := b.missing } }

-- ── Batch orchestration (lines 280-332, 438-455) ───────────────────────

/-- The trial's criteria: `query(EligibilityCriteria).filter_by(trial_id).all()`. -/
def criteriaFor (db : DB) (tid : Int) : List Criterion :=
  db.criteria.filter (fun c => c.trial_id == tid)

/-- `criterion_lookup = {c.id: c for c in criteria}`: on duplicate ids the
last row wins, as with a Python dict comprehension. -/
def lookupFor (criteria : List Criterion) : Int → Option Criterion :=
  fun i => criteria.reverse.find? (fun c => c.id == i)

/-- The effective weights: constructor defaults (or caller-provided ones)
updated by `trial.matching_config['weights']` when present (lines 294-297). -/
def cwOf (db : DB) (w : Weights) (tid : Int) : Weights :=
  match db.trials.find? (fun t => t.id == tid) with
  | some t => match t.weights_override with | some o => mergeW w o | none => w
  | none => w

/-- The per-patient bundle as built by the bulk fetch and partition of
lines 287-313: one bulk query per record type filtered by the id set, then
per-patient partitioning; on duplicate patient rows the last wins
(dict overwrite). -/
def mkBundle (db : DB) (pids : List String) (pid : String) (p : PatientR) : PatientData :=
  { patient := p
    conditions := (db.conditions.filter (fun c => pids.contains c.patient_id)).filter
      (fun c => c.patient_id == pid)
    medications := (db.medications.filter (fun m => pids.contains m.patient_id)).filter
      (fun m => m.patient_id == pid)
    observations := (db.observations.filter (fun o => pids.contains o.patient_id)).filter
      (fun o => o.patient_id == pid)
    allergies := (db.allergies.filter (fun a => pids.contains a.patient_id)).filter
      (fun a => a.patient_id == pid)
    immunizations := (db.immunizations.filter (fun i => pids.contains i.patient_id)).filter
      (fun i => i.patient_id == pid) }

def bundleFor (db : DB) (pids : List String) (pid : String) : Option PatientData :=
  ((db.patients.filter (fun p => pids.contains p.id)).reverse.find?
    (fun p => p.id == pid)).map (mkBundle db pids pid)

/-- Evaluation of one patient inside the batch loop (lines 318-436).  The
audit write of lines 438-450 is a side effect wrapped in its own
`try/except` and is not part of the returned value. -/
def perPatient (criteria : List Criterion) (lookup : Int → Option Criterion) (cw : Weights)
    (db : DB) (now : PDate) (pids : List String) (pid : String) : Except String Verdict :=
  match bundleFor db pids pid with
  | none => .ok notFoundVerdict
  | some pd =>
    match collectGo criteria lookup pd now criteria initBuckets with
    | .error e => .error e
    | .ok b => .ok (scoreVerdict cw b)

/-- The `for pid in patient_ids` loop building the results dict; an
uncaught exception mid-loop aborts the whole batch. -/
def batchLoop (f : String → Except String Verdict) : List String →
    Except String (List (String × Verdict))
  | [] => .ok []
  | pid :: rest =>
    match f pid with
    | .error e => .error e
    | .ok v =>
      match batchLoop f rest with
      | .error e => .error e
      | .ok rs => .ok ((pid, v) :: rs)

/-- Dict read `results.get(pid)`: with duplicate ids in `patient_ids` the
last assignment wins. -/
def dGet (rs : List (String × Verdict)) (pid : String) : Option Verdict :=
  (rs.reverse.find? (fun e => e.1 == pid)).map (fun e => e.2)

/-- `EligibilityMatcher.evaluate_batch` (lines 280-452); `w` is
`self.weights` (constructor default or injected). -/
def evaluate_batch (db : DB) (now : PDate) (w : Weights) (patient_ids : List String)
    (trial_id : Int) : Except String (List (String × Verdict)) :=
  if (criteriaFor db trial_id).isEmpty then
    .ok (patient_ids.map (fun pid => (pid, noCriteriaVerdict)))
  else
    batchLoop (perPatient (criteriaFor db trial_id) (lookupFor (criteriaFor db trial_id))
      (cwOf db w trial_id) db now patient_ids) patient_ids

/-- `EligibilityMatcher.evaluate_eligibility` (lines 454-455):
`evaluate_batch([patient_id], trial_id).get(patient_id)`. -/
def evaluate_eligibility (db : DB) (now : PDate) (w : Weights) (patient_id : String)
    (trial_id : Int) : Except String (Option Verdict) :=
  match evaluate_batch db now w [patient_id] trial_id with
  | .error e => .error e
  | .ok rs => .ok (dGet rs patient_id)

-- ── Statement-level derived quantities ─────────────────────────────────

/-- Number of results in a bucket with status `missing_data`. -/
def missCount (l : List (String × CritResult)) : Nat :=
  (l.filter (fun e => e.2.status == "missing_data")).length

/-- Number of results in a bucket with non-missing data. -/
def nonMissingCount (l : List (String × CritResult)) : Nat :=
  (l.filter (fun e => !(e.2.status == "missing_data"))).length

/-- The accounting invariant of the per-criterion loop: the `missing_data`
id list counts exactly the scorable (inclusion + exclusion) results whose
status is `missing_data` — administrative results never contribute. -/
def bInv (b : Buckets) : Prop :=
  b.missing.length = missCount b.incl + missCount b.excl

/-- The calendar age as worded by the spec: whole years elapsed,
subtracting one when the (month, day) birthday has not yet occurred in the
evaluation year. -/
def calendarAgeSpec (b t : PDate) : Int :=
  (t.y - b.y) - (if t.m < b.m ∨ (t.m = b.m ∧ t.d < b.d) then 1 else 0)

-- ── Concrete evaluation instances (used by the witness theorems) ───────

def wNow : PDate := ⟨2026, 10, 12⟩

def wPat1 : PatientR := ⟨"P1", some ⟨1980, 5, 10⟩, some "M"⟩

def wPat2 : PatientR := ⟨"P2", some ⟨1990, 1, 1⟩, some "F"⟩

/-- Trial 1: one hard exclusion (MEDICATION with no drug target: met). -/
def wCrit11 : Criterion :=
  { id := 11, trial_id := 1, criterion_type := some "exclusion",
    text := "Currently taking anticoagulant medication",
    category := some "MEDICATION", operator := none, value := none, unit := none,
    scope := none, structured_data := none, group_id := none, group_logic := none }

/-- Trial 3: a soft exclusion, with an all-zero per-trial weight override. -/
def wCrit31 : Criterion :=
  { id := 31, trial_id := 3, criterion_type := some "exclusion",
    text := "Soft exclusion: current anticoagulant use",
    category := some "MEDICATION", operator := none, value := none, unit := none,
    scope := none, structured_data := none, group_id := none, group_logic := none }

def wTrial3 : Trial :=
  ⟨3, some ⟨some (Frac.ofInt 0), some (Frac.ofInt 0), some (Frac.ofInt 0), some (Frac.ofInt 0)⟩⟩

/-- Trial 4: one met inclusion plus one soft exclusion, default weights. -/
def wCrit41 : Criterion :=
  { id := 41, trial_id := 4, criterion_type := some "inclusion",
    text := "On stable concomitant medication",
    category := some "MEDICATION", operator := none, value := none, unit := none,
    scope := none, structured_data := none, group_id := none, group_logic := none }

def wCrit42 : Criterion :=
  { id := 42, trial_id := 4, criterion_type := some "exclusion",
    text := "Soft exclusion: concomitant medication use",
    category := some "MEDICATION", operator := none, value := none, unit := none,
    scope := none, structured_data := none, group_id := none, group_logic := none }

/-- Trial 5: one missing-data inclusion (lab with no matching observation)
plus one met inclusion. -/
def wCrit51 : Criterion :=
  { id := 51, trial_id := 5, criterion_type := some "inclusion",
    text := "Hemoglobin level above 10",
    category := some "LAB_THRESHOLD", operator := some ">", value := some "10",
    unit := some "g/dL", scope := none, structured_data := none,
    group_id := none, group_logic := none }

def wCrit52 : Criterion :=
  { id := 52, trial_id := 5, criterion_type := some "inclusion",
    text := "On daily medication",
    category := some "MEDICATION", operator := none, value := none, unit := none,
    scope := none, structured_data := none, group_id := none, group_logic := none }

/-- Trial 6: an inclusion that depends on the patient's medications. -/
def wCrit61 : Criterion :=
  { id := 61, trial_id := 6, criterion_type := some "inclusion",
    text := "Taking warfarin", category := some "MEDICATION", operator := none,
    value := some "warfarin", unit := none, scope := none, structured_data := none,
    group_id := none, group_logic := none }

/-- Trial 7: a malformed criterion whose `structured_data.value_list` is a
non-iterable JSON scalar. -/
def wCrit71 : Criterion :=
  { id := 71, trial_id := 7, criterion_type := some "exclusion",
    text := "Taking more than three concomitant medications",
    category := some "MEDICATION", operator := none, value := none, unit := none,
    scope := none, structured_data := some { value_list := some .notIterable },
    group_id := none, group_logic := none }

def wdb : DB :=
  { patients := [wPat1, wPat2]
    conditions := []
    medications := [⟨"P1", some "Warfarin 5mg tablet"⟩]
    observations := [⟨"P1", none, some "Body Weight", some "70", some "kg", some ⟨2026, 1, 1⟩⟩]
    allergies := [⟨"P1", some "Penicillin allergy", none, none⟩]
    immunizations := []
    criteria := [wCrit11, wCrit31, wCrit41, wCrit42, wCrit51, wCrit52, wCrit61, wCrit71]
    trials := [wTrial3] }

def wFallbackPd : PatientData := ⟨wPat1, [], [], [], [], []⟩

/-- Batch result / verdict / bundle / buckets of trial `t` for patient `p`
over `wdb` (total helpers so that the witness hypotheses are decidable). -/
def wRs (t : Int) (p : String) : List (String × Verdict) :=
  match evaluate_batch wdb wNow defaultWeights [p] t with
  | .ok rs => rs
  | .error _ => []

def wV (t : Int) (p : String) : Verdict := (dGet (wRs t p) p).getD notFoundVerdict

def wPd (p : String) : PatientData := (bundleFor wdb [p] p).getD wFallbackPd

def wB (t : Int) (p : String) : Buckets :=
  match collectGo (criteriaFor wdb t) (lookupFor (criteriaFor wdb t)) (wPd p) wNow
      (criteriaFor wdb t) initBuckets with
  | .ok b => b
  | .error _ => initBuckets

/-- Compound-evaluation instance for the AND/OR claim: an allergy criterion
that is met with confidence 0.9 and a weight criterion that is not met with
confidence 0.95. -/
def wCmpA : Criterion :=
  { id := 101, trial_id := 9, criterion_type := some "exclusion",
    text := "Known penicillin allergy", category := some "ALLERGY", operator := none,
    value := some "penicillin", unit := none, scope := none, structured_data := none,
    group_id := none, group_logic := none }

def wCmpW : Criterion :=
  { id := 102, trial_id := 9, criterion_type := some "inclusion",
    text := "Body weight above 80 kg", category := some "WEIGHT", operator := some ">",
    value := some "80", unit := some "kg", scope := none, structured_data := none,
    group_id := none, group_logic := none }

def wCmpLookup : Int → Option Criterion :=
  fun i => if i = 101 then some wCmpA else if i = 102 then some wCmpW else none

def wCmpNode : CNode := .mk (some "AND") none [.ref 101, .ref 102]

def wCmpNodeOr : CNode := .mk (some "OR") none [.ref 101, .ref 999]

def wCmpCrs (node : CNode) : List CritResult :=
  match mapExcept (resolveChildWith wCmpLookup
      (fun n => evalCompound 10 n (wPd "P1") wCmpLookup wNow)
      (fun c => evalCriterion (wPd "P1") c wNow)) node.children with
  | .ok crs => crs
  | .error _ => []

/-- Criteria for the implicit medication edge case: no drug target, negated
via `operator = NO` resp. not negated. -/
def wMedNo : Criterion :=
  { id := 111, trial_id := 9, criterion_type := some "exclusion",
    text := "No current use of investigational drugs",
    category := some "MEDICATION", operator := some "NO", value := none, unit := none,
    scope := none, structured_data := none, group_id := none, group_logic := none }

def wMedPlain : Criterion :=
  { id := 112, trial_id := 9, criterion_type := some "inclusion",
    text := "Current concomitant medication",
    category := some "MEDICATION", operator := none, value := none, unit := none,
    scope := none, structured_data := none, group_id := none, group_logic := none }

-- ── Generic plumbing lemmas ────────────────────────────────────────────

theorem batchLoop_mem {f : String → Except String Verdict} :
    ∀ {l : List String} {rs : List (String × Verdict)},
    batchLoop f l = .ok rs → ∀ e ∈ rs, f e.1 = .ok e.2 ∧ e.1 ∈ l := by
  intro l
  induction l with
  | nil =>
    intro rs h e he
    simp [batchLoop] at h
    subst h
    simp at he
  | cons pid rest ih =>
    intro rs h e he
    unfold batchLoop at h
    cases hf : f pid with
    | error err => rw [hf] at h; exact absurd h (by simp)
    | ok v =>
      rw [hf] at h
      cases hrest : batchLoop f rest with
      | error err => rw [hrest] at h; exact absurd h (by simp)
      | ok rs' =>
        rw [hrest] at h
        simp at h
        subst h
        rcases List.mem_cons.mp he with he | he
        · subst he; exact ⟨hf, by simp⟩
        · have := ih hrest e he
          exact ⟨this.1, by simp [this.2]⟩

theorem dGet_mem {rs : List (String × Verdict)} {pid : String} {v : Verdict}
    (h : dGet rs pid = some v) : (pid, v) ∈ rs := by
  unfold dGet at h
  cases hf : rs.reverse.find? (fun e => e.1 == pid) with
  | none => rw [hf] at h; simp at h
  | some e =>
    rw [hf] at h
    simp at h
    have h1 := List.find?_some hf
    have h2 := List.mem_of_find?_eq_some hf
    rw [List.mem_reverse] at h2
    simp at h1
    have he : e = (pid, v) := by
      cases e
      simp_all
    rw [he] at h2
    exact h2

/-- With a non-empty criteria list the zero-criteria shortcut is not taken,
so every verdict read out of the batch result comes from `perPatient`. -/
theorem batch_get {db : DB} {now : PDate} {w : Weights} {pids : List String} {tid : Int}
    {rs : List (String × Verdict)} {pid : String} {v : Verdict}
    (hb : evaluate_batch db now w pids tid = .ok rs)
    (hg : dGet rs pid = some v)
    (hne : criteriaFor db tid ≠ []) :
    perPatient (criteriaFor db tid) (lookupFor (criteriaFor db tid)) (cwOf db w tid)
      db now pids pid = .ok v ∧ pid ∈ pids := by
  unfold evaluate_batch at hb
  have hemp : (criteriaFor db tid).isEmpty = false := by
    cases hc : criteriaFor db tid with
    | nil => exact absurd hc hne
    | cons a l => simp
  rw [hemp] at hb
  simp at hb
  exact batchLoop_mem hb (pid, v) (dGet_mem hg)

theorem perPatient_scored {criteria : List Criterion} {lookup : Int → Option Criterion}
    {cw : Weights} {db : DB} {now : PDate} {pids : List String} {pid : String}
    {pd : PatientData} {b : Buckets} {v : Verdict}
    (hpd : bundleFor db pids pid = some pd)
    (hc : collectGo criteria lookup pd now criteria initBuckets = .ok b)
    (hv : perPatient criteria lookup cw db now pids pid = .ok v) :
    v = scoreVerdict cw b := by
  have heq : perPatient criteria lookup cw db now pids pid = .ok (scoreVerdict cw b) := by
    unfold perPatient
    simp only [hpd, hc]
  rw [heq] at hv
  injection hv with hv
  exact hv.symm

-- ── Frac min/max lemmas ────────────────────────────────────────────────

theorem Frac.minF_le_left (a b : Frac) : (Frac.minF a b).toRat ≤ a.toRat := by
  unfold Frac.minF
  by_cases h : Frac.leB a b = true
  · rw [if_pos h]
  · rw [if_neg h]
    have : ¬ (a.toRat ≤ b.toRat) := fun hab => h ((Frac.leB_iff a b).mpr hab)
    linarith [lt_of_not_le this]

theorem Frac.minF_choice (a b : Frac) : Frac.minF a b = a ∨ Frac.minF a b = b := by
  unfold Frac.minF
  by_cases h : Frac.leB a b = true
  · rw [if_pos h]; left; rfl
  · rw [if_neg h]; right; rfl

theorem Frac.maxF_ge_left (a b : Frac) : a.toRat ≤ (Frac.maxF a b).toRat := by
  unfold Frac.maxF
  by_cases h : Frac.leB b a = true
  · rw [if_pos h]
  · rw [if_neg h]
    have : ¬ (b.toRat ≤ a.toRat) := fun hab => h ((Frac.leB_iff b a).mpr hab)
    linarith [lt_of_not_le this]

theorem Frac.maxF_ge_right (a b : Frac) : b.toRat ≤ (Frac.maxF a b).toRat := by
  unfold Frac.maxF
  by_cases h : Frac.leB b a = true
  · rw [if_pos h]
    exact (Frac.leB_iff b a).mp h
  · rw [if_neg h]

theorem Frac.minF_le_right2 (a b : Frac) : (Frac.minF a b).toRat ≤ b.toRat := by
  unfold Frac.minF
  by_cases h : Frac.leB a b = true
  · rw [if_pos h]
    exact (Frac.leB_iff a b).mp h
  · rw [if_neg h]

theorem Frac.maxF_choice (a b : Frac) : Frac.maxF a b = a ∨ Frac.maxF a b = b := by
  unfold Frac.maxF
  by_cases h : Frac.leB b a = true
  · rw [if_pos h]; left; rfl
  · rw [if_neg h]; right; rfl

theorem foldl_minF_mem : ∀ (l : List Frac) (a : Frac), l.foldl Frac.minF a ∈ a :: l := by
  intro l
  induction l with
  | nil => intro a; simp
  | cons x xs ih =>
    intro a
    have h := ih (Frac.minF a x)
    have hg : List.foldl Frac.minF a (x :: xs) = List.foldl Frac.minF (Frac.minF a x) xs := rfl
    rw [hg]
    rcases List.mem_cons.mp h with h | h
    · rw [h]
      rcases Frac.minF_choice a x with hc | hc <;> rw [hc] <;> simp
    · simp [h]

theorem foldl_minF_le : ∀ (l : List Frac) (a : Frac),
    (l.foldl Frac.minF a).toRat ≤ a.toRat ∧
    ∀ x ∈ l, (l.foldl Frac.minF a).toRat ≤ x.toRat := by
  intro l
  induction l with
  | nil => intro a; simp
  | cons x xs ih =>
    intro a
    have h := ih (Frac.minF a x)
    have hbound : (List.foldl Frac.minF (Frac.minF a x) xs).toRat ≤ (Frac.minF a x).toRat := h.1
    refine ⟨le_trans hbound (Frac.minF_le_left a x), ?_⟩
    intro y hy
    rcases List.mem_cons.mp hy with hy | hy
    · rw [hy]
      exact le_trans hbound (Frac.minF_le_right2 a x)
    · exact h.2 y hy

theorem foldl_maxF_mem : ∀ (l : List Frac) (a : Frac), l.foldl Frac.maxF a ∈ a :: l := by
  intro l
  induction l with
  | nil => intro a; simp
  | cons x xs ih =>
    intro a
    have h := ih (Frac.maxF a x)
    have hg : List.foldl Frac.maxF a (x :: xs) = List.foldl Frac.maxF (Frac.maxF a x) xs := rfl
    rw [hg]
    rcases List.mem_cons.mp h with h | h
    · rw [h]
      rcases Frac.maxF_choice a x with hc | hc <;> rw [hc] <;> simp
    · simp [h]

theorem foldl_maxF_ge : ∀ (l : List Frac) (a : Frac),
    a.toRat ≤ (l.foldl Frac.maxF a).toRat ∧
    ∀ x ∈ l, x.toRat ≤ (l.foldl Frac.maxF a).toRat := by
  intro l
  induction l with
  | nil => intro a; simp
  | cons x xs ih =>
    intro a
    have h := ih (Frac.maxF a x)
    have hbound : (Frac.maxF a x).toRat ≤ (List.foldl Frac.maxF (Frac.maxF a x) xs).toRat := h.1
    refine ⟨le_trans (Frac.maxF_ge_left a x) hbound, ?_⟩
    intro y hy
    rcases List.mem_cons.mp hy with hy | hy
    · rw [hy]
      exact le_trans (Frac.maxF_ge_right a x) hbound
    · exact h.2 y hy

theorem pyMinList_mem {l : List Frac} (hl : l ≠ []) (d : Frac) : pyMinList l d ∈ l := by
  cases l with
  | nil => exact absurd rfl hl
  | cons x xs =>
    have hg : pyMinList (x :: xs) d = List.foldl Frac.minF x xs := rfl
    rw [hg]
    exact foldl_minF_mem xs x

theorem pyMinList_le {l : List Frac} (d : Frac) :
    ∀ x ∈ l, (pyMinList l d).toRat ≤ x.toRat := by
  cases l with
  | nil => intro x hx; simp at hx
  | cons y ys =>
    intro x hx
    have hg : pyMinList (y :: ys) d = List.foldl Frac.minF y ys := rfl
    rw [hg]
    rcases List.mem_cons.mp hx with h | h
    · subst h
      exact (foldl_minF_le ys x).1
    · exact (foldl_minF_le ys y).2 x h

theorem pyMaxList_mem {l : List Frac} (hl : l ≠ []) (d : Frac) : pyMaxList l d ∈ l := by
  cases l with
  | nil => exact absurd rfl hl
  | cons x xs =>
    have hg : pyMaxList (x :: xs) d = List.foldl Frac.maxF x xs := rfl
    rw [hg]
    exact foldl_maxF_mem xs x

theorem pyMaxList_ge {l : List Frac} (d : Frac) :
    ∀ x ∈ l, x.toRat ≤ (pyMaxList l d).toRat := by
  cases l with
  | nil => intro x hx; simp at hx
  | cons y ys =>
    intro x hx
    have hg : pyMaxList (y :: ys) d = List.foldl Frac.maxF y ys := rfl
    rw [hg]
    rcases List.mem_cons.mp hx with h | h
    · subst h
      exact (foldl_maxF_ge ys x).1
    · exact (foldl_maxF_ge ys y).2 x h

-- ── The hard-exclusion gate ────────────────────────────────────────────

theorem scoreVerdict_gate (cw : Weights) (b : Buckets) (h : b.hard ≠ []) :
    (scoreVerdict cw b).eligible = false ∧
    (scoreVerdict cw b).status = some "INELIGIBLE" ∧
    (scoreVerdict cw b).confidence.toRat ≤ 3/20 := by
  have hemp : b.hard.isEmpty = false := by
    cases hh : b.hard with
    | nil => exact absurd hh h
    | cons a l => simp
  have hconf : (scoreVerdict cw b).confidence =
      Frac.round3 (Frac.minF (Frac.round3 (rawAfterSoftOf cw b)) ⟨3, 20, by norm_num⟩) := by
    simp [scoreVerdict, hemp]
  refine ⟨by simp [scoreVerdict, hemp], by simp [scoreVerdict, hemp], ?_⟩
  rw [hconf]
  have h1 : (Frac.minF (Frac.round3 (rawAfterSoftOf cw b)) ⟨3, 20, by norm_num⟩).toRat ≤
      (⟨3, 20, by norm_num⟩ : Frac).toRat := Frac.minF_le_right2 _ _
  have h2 := Frac.round3_mono h1
  have h3 : Frac.round3 (⟨3, 20, by norm_num⟩ : Frac) = ⟨150, 1000, by norm_num⟩ := by decide
  rw [h3] at h2
  have h4 : (⟨150, 1000, by norm_num⟩ : Frac).toRat = 3/20 := by
    norm_num [Frac.toRat]
  rw [h4] at h2
  exact h2

/-- C1: Hard-exclusion gate.  For every patient evaluated by
`evaluate_batch` against a trial with at least one criterion, if at least
one hard exclusion is met (an exclusion criterion with status met whose
text contains none of "preferred", "relative", "soft" — the `hard` list of
the routing), then the returned verdict has `eligible = false`,
`status = "INELIGIBLE"` and `confidence ≤ 0.15`, regardless of the
inclusion / data-completeness / nlp sub-scores and of the weights. -/
theorem C1_hard_exclusion_gate (db : DB) (now : PDate) (w : Weights) (pids : List String)
    (tid : Int) (rs : List (String × Verdict)) (pid : String) (v : Verdict)
    (pd : PatientData) (b : Buckets)
    (hne : criteriaFor db tid ≠ [])
    (hb : evaluate_batch db now w pids tid = .ok rs)
    (hg : dGet rs pid = some v)
    (hpd : bundleFor db pids pid = some pd)
    (hcol : collectGo (criteriaFor db tid) (lookupFor (criteriaFor db tid)) pd now
      (criteriaFor db tid) initBuckets = .ok b)
    (hhard : b.hard ≠ []) :
    v.eligible = false ∧ v.status = some "INELIGIBLE" ∧ v.confidence.toRat ≤ 3/20 := by
  have hper := (batch_get hb hg hne).1
  have hv := perPatient_scored hpd hcol hper
  rw [hv]
  exact scoreVerdict_gate _ _ hhard

/-- Witness for C1: a concrete trial whose single exclusion criterion is
met and hard; the verdict is INELIGIBLE with confidence 0.15 ≤ 0.15. -/
theorem C1_hard_exclusion_gate_witness :
    (wV 1 "P1").eligible = false ∧ (wV 1 "P1").status = some "INELIGIBLE" ∧
    (wV 1 "P1").confidence.toRat ≤ 3/20 :=
  C1_hard_exclusion_gate wdb wNow defaultWeights ["P1"] 1 (wRs 1 "P1") "P1" (wV 1 "P1")
    (wPd "P1") (wB 1 "P1")
    (List.ne_nil_of_length_pos (by decide)) (by decide) (by decide) (by decide) (by decide)
    (by decide)

-- ── Zero-criteria configuration error ──────────────────────────────────

theorem dGet_const_map {pids : List String} {pid : String} (h : pid ∈ pids) (vfix : Verdict) :
    dGet (pids.map (fun p => (p, vfix))) pid = some vfix := by
  unfold dGet
  cases hf : (pids.map (fun p => (p, vfix))).reverse.find? (fun e => e.1 == pid) with
  | none =>
    exfalso
    rw [List.find?_eq_none] at hf
    refine hf (pid, vfix) ?_ (by simp)
    rw [List.mem_reverse, List.mem_map]
    exact ⟨pid, h, rfl⟩
  | some e =>
    have hmem := List.mem_of_find?_eq_some hf
    rw [List.mem_reverse, List.mem_map] at hmem
    obtain ⟨p, _, hpe⟩ := hmem
    simp [← hpe]

/-- C3 counterexample: at a concrete zero-criteria trial the uniform error
verdict's message is "No eligibility criteria defined for trial", not the
claimed "No eligibility criteria defined". -/
theorem C3_error_message_counterexample :
    evaluate_batch wdb wNow defaultWeights ["P1", "P2"] 2 =
      .ok [("P1", noCriteriaVerdict), ("P2", noCriteriaVerdict)] ∧
    noCriteriaVerdict.reasons.error ≠ some "No eligibility criteria defined" :=
  ⟨by decide, by decide⟩

/-- C3 (amended): a trial with no eligibility criteria yields, without
raising, the same error verdict for every requested patient id, with
`eligible = false`, `confidence = 0.0` and
`reasons.error = "No eligibility criteria defined for trial"`. -/
theorem C3_zero_criteria_uniform_error (db : DB) (now : PDate) (w : Weights)
    (pids : List String) (tid : Int)
    (hempty : criteriaFor db tid = []) :
    evaluate_batch db now w pids tid = .ok (pids.map (fun pid => (pid, noCriteriaVerdict))) ∧
    (∀ pid ∈ pids,
      dGet (pids.map (fun p => (p, noCriteriaVerdict))) pid = some noCriteriaVerdict) ∧
    noCriteriaVerdict.eligible = false ∧
    noCriteriaVerdict.confidence.toRat = 0 ∧
    noCriteriaVerdict.reasons.error = some "No eligibility criteria defined for trial" := by
  refine ⟨?_, fun pid h => dGet_const_map h _, rfl, by norm_num [noCriteriaVerdict, Frac.toRat, Frac.ofInt], rfl⟩
  unfold evaluate_batch
  rw [hempty]
  simp

/-- Witness for C3: the amended theorem applied to the concrete
zero-criteria trial 2. -/
theorem C3_zero_criteria_uniform_error_witness :
    evaluate_batch wdb wNow defaultWeights ["P1", "P2"] 2 =
      .ok [("P1", noCriteriaVerdict), ("P2", noCriteriaVerdict)] ∧
    noCriteriaVerdict.eligible = false ∧ noCriteriaVerdict.confidence.toRat = 0 := by
  have h := C3_zero_criteria_uniform_error wdb wNow defaultWeights ["P1", "P2"] 2
    (List.eq_nil_of_length_eq_zero (by decide))
  exact ⟨h.1, h.2.2.1, h.2.2.2.1⟩

-- ── Batch / single consistency ─────────────────────────────────────────

theorem find?_filter_imp {α : Type} (l : List α) (q p : α → Bool)
    (himp : ∀ x, p x = true → q x = true) :
    (l.filter q).find? p = l.find? p := by
  induction l with
  | nil => rfl
  | cons x xs ih =>
    by_cases hq : q x = true
    · rw [List.filter_cons_of_pos hq]
      cases hp : p x with
      | true => rw [List.find?_cons_of_pos _ hp, List.find?_cons_of_pos _ hp]
      | false => rw [List.find?_cons_of_neg _ (by simp [hp]), List.find?_cons_of_neg _ (by simp [hp]), ih]
    · have hp : p x = false := by
        cases hpx : p x with
        | true => exact absurd (himp x hpx) hq
        | false => rfl
      rw [List.filter_cons_of_neg (by simp [hq]), List.find?_cons_of_neg _ (by simp [hp]), ih]

theorem filter_filter_imp {α : Type} (l : List α) (q p : α → Bool)
    (himp : ∀ x, p x = true → q x = true) :
    (l.filter q).filter p = l.filter p := by
  induction l with
  | nil => rfl
  | cons x xs ih =>
    by_cases hq : q x = true
    · rw [List.filter_cons_of_pos hq]
      cases hp : p x with
      | true => rw [List.filter_cons_of_pos hp, List.filter_cons_of_pos hp, ih]
      | false => rw [List.filter_cons_of_neg (by simp [hp]), List.filter_cons_of_neg (by simp [hp]), ih]
    · have hp : p x = false := by
        cases hpx : p x with
        | true => exact absurd (himp x hpx) hq
        | false => rfl
      rw [List.filter_cons_of_neg (by simp [hq]), List.filter_cons_of_neg (by simp [hp]), ih]

/-- The bulk-fetch bundle of a patient does not depend on which other ids
were fetched alongside it: the partition of the id-set query by patient id
equals the single-id query. -/
theorem bundleFor_single {db : DB} {pids : List String} {pid : String} (h : pid ∈ pids) :
    bundleFor db pids pid = bundleFor db [pid] pid := by
  have himpP : ∀ x : PatientR, (x.id == pid) = true → (pids.contains x.id) = true := by
    intro x hx
    have : x.id = pid := by simpa using hx
    rw [this]
    simpa [List.elem_iff] using h
  have himpP1 : ∀ x : PatientR, (x.id == pid) = true → (([pid].contains x.id)) = true := by
    intro x hx
    have : x.id = pid := by simpa using hx
    simp [this]
  have hpat : (db.patients.filter (fun p => pids.contains p.id)).reverse.find?
        (fun p => p.id == pid) =
      (db.patients.filter (fun p => [pid].contains p.id)).reverse.find? (fun p => p.id == pid) := by
    rw [show (db.patients.filter (fun p => pids.contains p.id)).reverse =
        db.patients.reverse.filter (fun p => pids.contains p.id) from (List.filter_reverse _ _).symm]
    rw [show (db.patients.filter (fun p => [pid].contains p.id)).reverse =
        db.patients.reverse.filter (fun p => [pid].contains p.id) from (List.filter_reverse _ _).symm]
    rw [find?_filter_imp _ _ _ himpP, find?_filter_imp _ _ _ himpP1]
  unfold bundleFor
  rw [hpat]
  have hmk : mkBundle db pids pid = mkBundle db [pid] pid := by
    funext p
    unfold mkBundle
    have himpC : ∀ x : ConditionR, (x.patient_id == pid) = true →
        (pids.contains x.patient_id) = true := by
      intro x hx
      have : x.patient_id = pid := by simpa using hx
      rw [this]
      simpa [List.elem_iff] using h
    have himpC1 : ∀ x : ConditionR, (x.patient_id == pid) = true →
        (([pid].contains x.patient_id)) = true := by
      intro x hx
      have : x.patient_id = pid := by simpa using hx
      simp [this]
    have himpM : ∀ x : MedicationR, (x.patient_id == pid) = true →
        (pids.contains x.patient_id) = true := by
      intro x hx
      have : x.patient_id = pid := by simpa using hx
      rw [this]
      simpa [List.elem_iff] using h
    have himpM1 : ∀ x : MedicationR, (x.patient_id == pid) = true →
        (([pid].contains x.patient_id)) = true := by
      intro x hx
      have : x.patient_id = pid := by simpa using hx
      simp [this]
    have himpO : ∀ x : ObservationR, (x.patient_id == pid) = true →
        (pids.contains x.patient_id) = true := by
      intro x hx
      have : x.patient_id = pid := by simpa using hx
      rw [this]
      simpa [List.elem_iff] using h
    have himpO1 : ∀ x : ObservationR, (x.patient_id == pid) = true →
        (([pid].contains x.patient_id)) = true := by
      intro x hx
      have : x.patient_id = pid := by simpa using hx
      simp [this]
    have himpA : ∀ x : AllergyR, (x.patient_id == pid) = true →
        (pids.contains x.patient_id) = true := by
      intro x hx
      have : x.patient_id = pid := by simpa using hx
      rw [this]
      simpa [List.elem_iff] using h
    have himpA1 : ∀ x : AllergyR, (x.patient_id == pid) = true →
        (([pid].contains x.patient_id)) = true := by
      intro x hx
      have : x.patient_id = pid := by simpa using hx
      simp [this]
    have himpI : ∀ x : ImmunizationR, (x.patient_id == pid) = true →
        (pids.contains x.patient_id) = true := by
      intro x hx
      have : x.patient_id = pid := by simpa using hx
      rw [this]
      simpa [List.elem_iff] using h
    have himpI1 : ∀ x : ImmunizationR, (x.patient_id == pid) = true →
        (([pid].contains x.patient_id)) = true := by
      intro x hx
      have : x.patient_id = pid := by simpa using hx
      simp [this]
    rw [filter_filter_imp _ _ _ himpC, filter_filter_imp _ _ _ himpC1,
        filter_filter_imp _ _ _ himpM, filter_filter_imp _ _ _ himpM1,
        filter_filter_imp _ _ _ himpO, filter_filter_imp _ _ _ himpO1,
        filter_filter_imp _ _ _ himpA, filter_filter_imp _ _ _ himpA1,
        filter_filter_imp _ _ _ himpI, filter_filter_imp _ _ _ himpI1]
  rw [hmk]

/-- C4: Batch/single consistency.  Whatever verdict `evaluate_batch`
returns for a patient id, the single-patient wrapper
`evaluate_eligibility` (which is `evaluate_batch([pid]).get(pid)`) returns
the same verdict: the per-patient bundle from the bulk fetch is
independent of the other fetched ids, so single and bulk calls behave
identically. -/
theorem C4_batch_single_consistency (db : DB) (now : PDate) (w : Weights)
    (pids : List String) (tid : Int) (rs : List (String × Verdict)) (pid : String) (v : Verdict)
    (hb : evaluate_batch db now w pids tid = .ok rs)
    (hg : dGet rs pid = some v) :
    evaluate_eligibility db now w pid tid = .ok (some v) := by
  by_cases hemp : (criteriaFor db tid).isEmpty = true
  · unfold evaluate_batch at hb
    rw [if_pos hemp] at hb
    injection hb with hb
    subst hb
    have hmem := dGet_mem hg
    rw [List.mem_map] at hmem
    obtain ⟨p, hp, hpe⟩ := hmem
    have hpid : p = pid := congrArg Prod.fst hpe
    have hv : v = noCriteriaVerdict := (congrArg Prod.snd hpe).symm
    subst hpid
    unfold evaluate_eligibility evaluate_batch
    rw [if_pos hemp]
    rw [hv]
    simp only [List.map, Except.ok.injEq]
    exact dGet_const_map (by simp : p ∈ [p]) noCriteriaVerdict
  · have hne : criteriaFor db tid ≠ [] := by
      intro hc
      rw [hc] at hemp
      exact hemp rfl
    obtain ⟨hper, hmem⟩ := batch_get hb hg hne
    have hpp : perPatient (criteriaFor db tid) (lookupFor (criteriaFor db tid)) (cwOf db w tid)
        db now [pid] pid = .ok v := by
      unfold perPatient at hper ⊢
      rw [← bundleFor_single hmem]
      exact hper
    unfold evaluate_eligibility evaluate_batch
    rw [if_neg hemp]
    unfold batchLoop
    rw [hpp]
    simp [batchLoop, dGet]

/-- Witness for C4: bulk call over both patients of the concrete store,
then the single call for "P1" returns the identical verdict. -/
theorem C4_batch_single_consistency_witness :
    evaluate_eligibility wdb wNow defaultWeights "P1" 6 =
      .ok (some ((dGet (match evaluate_batch wdb wNow defaultWeights ["P1", "P2"] 6 with
        | .ok rs => rs
        | .error _ => []) "P1").getD notFoundVerdict)) :=
  C4_batch_single_consistency wdb wNow defaultWeights ["P1", "P2"] 6
    (match evaluate_batch wdb wNow defaultWeights ["P1", "P2"] 6 with
      | .ok rs => rs
      | .error _ => []) "P1"
    ((dGet (match evaluate_batch wdb wNow defaultWeights ["P1", "P2"] 6 with
      | .ok rs => rs
      | .error _ => []) "P1").getD notFoundVerdict)
    (by decide) (by decide)

-- ── Idempotence ────────────────────────────────────────────────────────

/-- C9: determinism/idempotence.  `evaluate_eligibility` is a pure
function of the stored data, the evaluation date and the weights: two
calls with unchanged inputs return identical confidence and status. -/
theorem C9_idempotent (db : DB) (now : PDate) (w : Weights) (pid : String) (tid : Int)
    (v1 v2 : Verdict)
    (h1 : evaluate_eligibility db now w pid tid = .ok (some v1))
    (h2 : evaluate_eligibility db now w pid tid = .ok (some v2)) :
    v1.confidence = v2.confidence ∧ v1.status = v2.status := by
  rw [h1] at h2
  injection h2 with h2
  injection h2 with h2
  rw [h2]
  exact ⟨rfl, rfl⟩

/-- Witness for C9: two identical single-patient evaluations of the
concrete store agree on confidence and status. -/
theorem C9_idempotent_witness :
    (wV 1 "P1").confidence = (wV 1 "P1").confidence ∧
    (wV 1 "P1").status = (wV 1 "P1").status :=
  C9_idempotent wdb wNow defaultWeights "P1" 1 (wV 1 "P1") (wV 1 "P1")
    (by decide) (by decide)

-- ── Soft-exclusion penalty ─────────────────────────────────────────────

theorem scoreVerdict_conf_noHard (cw : Weights) (b : Buckets) (h : b.hard = []) :
    (scoreVerdict cw b).confidence = Frac.round3 (rawAfterSoftOf cw b) := by
  have hemp : b.hard.isEmpty = true := by rw [h]; rfl
  simp only [scoreVerdict, hemp, Bool.not_true, Bool.false_eq_true, if_false]
  split_ifs <;> rfl

theorem rawAfterSoft_soft (cw : Weights) (b : Buckets) (h : b.soft ≠ []) :
    rawAfterSoftOf cw b = Frac.mul (rawConfidenceOf cw b) ⟨17, 20, by norm_num⟩ := by
  have hemp : b.soft.isEmpty = false := by
    cases hh : b.soft with
    | nil => exact absurd hh h
    | cons a l => simp
  simp only [rawAfterSoftOf, hemp]
  rfl

/-- C5 (amended): soft-exclusion penalty.  When at least one soft
exclusion and no hard exclusion is met, the raw composite confidence is
multiplied by 0.85 before rounding; the resulting confidence is at most
the confidence computed without the penalty whenever the raw confidence
is non-negative, and strictly below it whenever the raw confidence is at
least 0.01 (the 15% reduction then survives 3-decimal rounding; under the
default weights the raw confidence is at least 0.25 in this situation, so
the strict decrease always holds there; with an adversarial per-trial
weight override the unpenalized confidence can be 0 and the penalty then
changes nothing — see the counterexample). -/
theorem C5_soft_exclusion_penalty (db : DB) (now : PDate) (w : Weights) (pids : List String)
    (tid : Int) (rs : List (String × Verdict)) (pid : String) (v : Verdict)
    (pd : PatientData) (b : Buckets)
    (hb : evaluate_batch db now w pids tid = .ok rs)
    (hg : dGet rs pid = some v)
    (hpd : bundleFor db pids pid = some pd)
    (hcol : collectGo (criteriaFor db tid) (lookupFor (criteriaFor db tid)) pd now
      (criteriaFor db tid) initBuckets = .ok b)
    (hsoft : b.soft ≠ [])
    (hhard : b.hard = []) :
    v.confidence = Frac.round3 (Frac.mul (rawConfidenceOf (cwOf db w tid) b) ⟨17, 20, by norm_num⟩) ∧
    (0 ≤ (rawConfidenceOf (cwOf db w tid) b).toRat →
      v.confidence.toRat ≤ (Frac.round3 (rawConfidenceOf (cwOf db w tid) b)).toRat) ∧
    (1/100 ≤ (rawConfidenceOf (cwOf db w tid) b).toRat →
      v.confidence.toRat < (Frac.round3 (rawConfidenceOf (cwOf db w tid) b)).toRat) := by
  have hne : criteriaFor db tid ≠ [] := by
    intro hc
    rw [hc] at hcol
    have : b = initBuckets := by
      have h0 : collectGo [] (lookupFor []) pd now [] initBuckets = .ok initBuckets := rfl
      rw [h0] at hcol
      injection hcol with h
      exact h.symm
    rw [this] at hsoft
    exact hsoft rfl
  have hper := (batch_get hb hg hne).1
  have hv := perPatient_scored hpd hcol hper
  subst hv
  have hconf := scoreVerdict_conf_noHard (cwOf db w tid) b hhard
  rw [rawAfterSoft_soft _ _ hsoft] at hconf
  have hfrac : (⟨17, 20, by norm_num⟩ : Frac).toRat = 17/20 := by norm_num [Frac.toRat]
  refine ⟨hconf, ?_, ?_⟩
  · intro hraw
    rw [hconf]
    apply Frac.round3_mono
    rw [Frac.toRat_mul, hfrac]
    nlinarith
  · intro hraw
    rw [hconf]
    apply Frac.round3_strict
    rw [Frac.toRat_mul, hfrac]
    nlinarith

/-- C5 counterexample to the claim as stated: with a per-trial weight
override of all zeroes, a met soft exclusion (and no hard exclusion)
leaves the final confidence exactly equal to the confidence computed
without the 0.85 penalty (both 0.0), so "strictly less" fails. -/
theorem C5_soft_exclusion_penalty_counterexample :
    evaluate_batch wdb wNow defaultWeights ["P1"] 3 = .ok (wRs 3 "P1") ∧
    dGet (wRs 3 "P1") "P1" = some (wV 3 "P1") ∧
    (wB 3 "P1").soft ≠ [] ∧ (wB 3 "P1").hard = [] ∧
    ¬ ((wV 3 "P1").confidence.toRat <
        (Frac.round3 (rawConfidenceOf (cwOf wdb defaultWeights 3) (wB 3 "P1"))).toRat) := by
  refine ⟨by decide, by decide, by decide, by decide, ?_⟩
  have h : (wV 3 "P1").confidence =
      Frac.round3 (rawConfidenceOf (cwOf wdb defaultWeights 3) (wB 3 "P1")) := by decide
  rw [h]
  exact lt_irrefl _

/-- Witness for C5: a trial with one met inclusion and one met soft
exclusion under the default weights; the penalty strictly reduces the
confidence (0.837 < 0.985) and the patient is still eligible. -/
theorem C5_soft_exclusion_penalty_witness :
    (wV 4 "P1").confidence =
      Frac.round3 (Frac.mul (rawConfidenceOf (cwOf wdb defaultWeights 4) (wB 4 "P1"))
        ⟨17, 20, by norm_num⟩) ∧
    (wV 4 "P1").confidence.toRat <
      (Frac.round3 (rawConfidenceOf (cwOf wdb defaultWeights 4) (wB 4 "P1"))).toRat ∧
    (wV 4 "P1").eligible = true := by
  have h := C5_soft_exclusion_penalty wdb wNow defaultWeights ["P1"] 4 (wRs 4 "P1") "P1"
    (wV 4 "P1") (wPd "P1") (wB 4 "P1")
    (by decide) (by decide) (by decide) (by decide) (by decide) (by decide)
  refine ⟨h.1, ?_, by decide⟩
  apply h.2.2
  have hle : Frac.leB ⟨1, 100, by norm_num⟩ (rawConfidenceOf (cwOf wdb defaultWeights 4)
      (wB 4 "P1")) = true := by decide
  have := (Frac.leB_iff _ _).mp hle
  have h100 : (⟨1, 100, by norm_num⟩ : Frac).toRat = 1/100 := by norm_num [Frac.toRat]
  rw [h100] at this
  exact this

-- ── Data-completeness accounting ───────────────────────────────────────

theorem evalCriterion_consent (pd : PatientData) (c : Criterion) (now : PDate)
    (h : strUpper (pyOrD c.category "") = "CONSENT_REQUIREMENT") :
    evalCriterion pd c now = evalConsent c := by
  unfold evalCriterion
  rw [h]
  rfl

theorem evalCriterion_contraception (pd : PatientData) (c : Criterion) (now : PDate)
    (h : strUpper (pyOrD c.category "") = "CONTRACEPTION") :
    evalCriterion pd c now = evalContraception pd c := by
  unfold evalCriterion
  rw [h]
  rfl

theorem evalContraception_not_missing (pd : PatientData) (c : Criterion) (r : CritResult)
    (h : evalContraception pd c = .ok r) : r.status ≠ "missing_data" := by
  unfold evalContraception at h
  split_ifs at h with h1
  · injection h with h
    rw [← h]
    simp
  · split at h
    · split_ifs at h <;> (injection h with h; rw [← h]; simp)
    · injection h with h
      rw [← h]
      simp

theorem evalCompound_status (fuel : Nat) (node : CNode) (pd : PatientData)
    (lookup : Int → Option Criterion) (now : PDate) (r : CritResult)
    (h : evalCompound fuel node pd lookup now = .ok r) :
    r.status = "met" ∨ r.status = "not_met" := by
  cases fuel with
  | zero => exact absurd h (by simp [evalCompound])
  | succ f =>
    unfold evalCompound at h
    by_cases h1 : node.children.isEmpty = true
    · rw [if_pos h1] at h
      exact absurd h (by simp)
    · rw [if_neg h1] at h
      cases hm : mapExcept (resolveChildWith lookup (fun n => evalCompound f n pd lookup now)
          (fun c => evalCriterion pd c now)) node.children with
      | error e => rw [hm] at h; exact absurd h (by simp)
      | ok crs =>
        rw [hm] at h
        injection h with h
        rw [← h]
        unfold combineResults
        by_cases hA : compoundLogic node = "AND"
        · rw [if_pos hA]
          cases crs.all (fun x => x.status == "met") <;> simp
        · rw [if_neg hA]
          by_cases hO : compoundLogic node = "OR"
          · rw [if_pos hO]
            cases crs.any (fun x => x.status == "met") <;> simp
          · rw [if_neg hO]
            simp

theorem missCount_append_one (l : List (String × CritResult)) (e : String × CritResult) :
    missCount (l ++ [e]) =
      missCount l + (if e.2.status == "missing_data" then 1 else 0) := by
  unfold missCount
  rw [List.filter_append, List.length_append]
  cases h : (e.2.status == "missing_data") <;> simp [List.filter, h]

theorem routeExclusion_fields (b : Buckets) (c : Criterion) (txt : String) (r : CritResult) :
    (routeExclusion b c txt r).incl = b.incl ∧
    (routeExclusion b c txt r).excl = b.excl ++ [(txt, r)] ∧
    (routeExclusion b c txt r).missing = b.missing := by
  unfold routeExclusion
  split_ifs <;> exact ⟨rfl, rfl, rfl⟩

theorem routeBucket_missing (b : Buckets) (c : Criterion) (txt : String) (r : CritResult) :
    (routeBucket b c txt r).missing = b.missing := by
  unfold routeBucket
  split_ifs with h1 h2
  · rfl
  · rfl
  · exact (routeExclusion_fields b c txt r).2.2

theorem routeBucket_counts (b : Buckets) (c : Criterion) (txt : String) (r : CritResult)
    (hadmin : isAdministrativeCategory (strUpper (pyOrD c.category "")) = true →
      r.status ≠ "missing_data") :
    missCount (routeBucket b c txt r).incl + missCount (routeBucket b c txt r).excl =
      missCount b.incl + missCount b.excl +
        (if r.status == "missing_data" then 1 else 0) := by
  by_cases h1 : isAdministrativeCategory (strUpper (pyOrD c.category "")) = true
  · have hst : (r.status == "missing_data") = false := by simpa using hadmin h1
    unfold routeBucket
    rw [if_pos h1, hst]
    simp
  · unfold routeBucket
    rw [if_neg h1]
    by_cases h2 : (c.criterion_type == some "inclusion") = true
    · rw [if_pos h2]
      simp only [missCount_append_one]
      cases hm : (r.status == "missing_data") <;> simp [hm] <;> omega
    · rw [if_neg h2]
      have hf := routeExclusion_fields b c txt r
      rw [hf.1, hf.2.1]
      simp only [missCount_append_one]
      cases hm : (r.status == "missing_data") <;> simp [hm] <;> omega

theorem routeResult_inv (b : Buckets) (c : Criterion) (txt : String) (r : CritResult)
    (hadmin : isAdministrativeCategory (strUpper (pyOrD c.category "")) = true →
      r.status ≠ "missing_data")
    (h : bInv b) : bInv (routeResult b c txt r) := by
  have hcnt := routeBucket_counts b c txt r hadmin
  have hmis := routeBucket_missing b c txt r
  unfold bInv at h
  unfold routeResult addMissing bInv
  by_cases hm : (r.status == "missing_data") = true
  · rw [if_pos hm]
    rw [hm] at hcnt
    simp only [if_true] at hcnt
    change ((routeBucket b c txt r).missing ++ [c.id]).length =
      missCount (routeBucket b c txt r).incl + missCount (routeBucket b c txt r).excl
    rw [List.length_append, hmis]
    simp only [List.length_singleton]
    omega
  · rw [if_neg hm]
    have hm2 : (r.status == "missing_data") = false := by
      cases hx : (r.status == "missing_data") with
      | true => exact absurd hx hm
      | false => rfl
    rw [hm2] at hcnt
    simp only [Bool.false_eq_true, if_false] at hcnt
    change (routeBucket b c txt r).missing.length =
      missCount (routeBucket b c txt r).incl + missCount (routeBucket b c txt r).excl
    rw [hmis]
    omega

theorem isAdministrativeCategory_cases {cat : String}
    (h : isAdministrativeCategory cat = true) :
    cat = "CONSENT_REQUIREMENT" ∨ cat = "CONTRACEPTION" := by
  unfold isAdministrativeCategory at h
  rcases Bool.or_eq_true_iff.mp h with h | h
  · left; simpa using h
  · right; simpa using h

/-- A result routed from `_evaluate_criterion` can only be `missing_data`
if it is not administrative: the CONSENT_REQUIREMENT handler always
returns met, the CONTRACEPTION handler met or not met. -/
theorem evalCriterion_admin_not_missing (pd : PatientData) (c : Criterion) (now : PDate)
    (r : CritResult) (hev : evalCriterion pd c now = .ok r)
    (hcat : isAdministrativeCategory (strUpper (pyOrD c.category "")) = true) :
    r.status ≠ "missing_data" := by
  rcases isAdministrativeCategory_cases hcat with h | h
  · rw [evalCriterion_consent pd c now h] at hev
    unfold evalConsent at hev
    injection hev with hev
    rw [← hev]
    simp
  · rw [evalCriterion_contraception pd c now h] at hev
    exact evalContraception_not_missing pd c r hev

theorem collectStep_inv (full : List Criterion) (lookup : Int → Option Criterion)
    (pd : PatientData) (now : PDate) (b b2 : Buckets) (c : Criterion)
    (h : bInv b) (hs : collectStep full lookup pd now b c = .ok b2) : bInv b2 := by
  unfold collectStep at hs
  by_cases hg : truthyS c.group_id = true
  · rw [if_pos hg] at hs
    by_cases hproc : optS c.group_id ∈ b.processed
    · rw [if_pos hproc] at hs
      injection hs with hs
      rw [← hs]
      exact h
    · rw [if_neg hproc] at hs
      cases hev : evalCompound recLimit
          (CNode.mk (some (pyOrD c.group_logic "AND")) none
            ((full.filter (fun x => x.group_id == c.group_id)).map (fun x => CChild.ref x.id)))
          pd lookup now with
      | error e => rw [hev] at hs; exact absurd hs (by simp)
      | ok r =>
        rw [hev] at hs
        injection hs with hs
        rw [← hs]
        apply routeResult_inv
        · intro _
          rcases evalCompound_status _ _ _ _ _ _ hev with hst | hst <;> simp [hst]
        · exact h
  · rw [if_neg hg] at hs
    cases hev : evalCriterion pd c now with
    | error e => rw [hev] at hs; exact absurd hs (by simp)
    | ok r =>
      rw [hev] at hs
      injection hs with hs
      rw [← hs]
      apply routeResult_inv
      · intro hcat
        exact evalCriterion_admin_not_missing pd c now r hev hcat
      · exact h

theorem collectGo_inv (full : List Criterion) (lookup : Int → Option Criterion)
    (pd : PatientData) (now : PDate) :
    ∀ (rest : List Criterion) (b b' : Buckets), bInv b →
    collectGo full lookup pd now rest b = .ok b' → bInv b' := by
  intro rest
  induction rest with
  | nil =>
    intro b b' h hg
    injection hg with hg
    rw [← hg]
    exact h
  | cons c cs ih =>
    intro b b' h hg
    unfold collectGo at hg
    cases hs : collectStep full lookup pd now b c with
    | error e => rw [hs] at hg; exact absurd hg (by simp)
    | ok b2 =>
      rw [hs] at hg
      exact ih b2 b' (collectStep_inv full lookup pd now b b2 c h hs) hg

theorem counts_split (l : List (String × CritResult)) :
    missCount l + nonMissingCount l = l.length := by
  induction l with
  | nil => rfl
  | cons e es ih =>
    unfold missCount nonMissingCount at ih ⊢
    cases h : (e.2.status == "missing_data") with
    | true => simp [List.filter_cons, h, Nat.succ_add]; omega
    | false => simp [List.filter_cons, h]; omega

theorem nonMissingCount_append (l1 l2 : List (String × CritResult)) :
    nonMissingCount (l1 ++ l2) = nonMissingCount l1 + nonMissingCount l2 := by
  unfold nonMissingCount
  rw [List.filter_append, List.length_append]

/-- C6: data-completeness accounting.  For every patient evaluation with at
least one scorable (inclusion or exclusion) criterion, every scorable
criterion whose result status is `missing_data` is excluded from the
numerator of `data_completeness` but included in its denominator:
`data_completeness = (# scorable results with non-missing data) /
(# inclusion results + # exclusion results)`, and the verdict reports its
2-decimal rounding. -/
theorem C6_data_completeness (db : DB) (now : PDate) (w : Weights) (pids : List String)
    (tid : Int) (rs : List (String × Verdict)) (pid : String) (v : Verdict)
    (pd : PatientData) (b : Buckets)
    (hb : evaluate_batch db now w pids tid = .ok rs)
    (hg : dGet rs pid = some v)
    (hpd : bundleFor db pids pid = some pd)
    (hcol : collectGo (criteriaFor db tid) (lookupFor (criteriaFor db tid)) pd now
      (criteriaFor db tid) initBuckets = .ok b)
    (hscor : 0 < b.incl.length + b.excl.length) :
    (dataCompletenessOf b).toRat =
      (nonMissingCount (b.incl ++ b.excl) : ℚ) / ((b.incl.length + b.excl.length : ℕ) : ℚ) ∧
    v.reasons.data_completeness = Frac.round2 (dataCompletenessOf b) := by
  have hinv : bInv b := by
    apply collectGo_inv (criteriaFor db tid) (lookupFor (criteriaFor db tid)) pd now
      (criteriaFor db tid) initBuckets b ?_ hcol
    unfold bInv initBuckets missCount
    rfl
  constructor
  · unfold dataCompletenessOf
    rw [if_pos hscor]
    unfold fracIntDivNat
    rw [dif_pos hscor]
    unfold Frac.toRat
    have hsplit1 := counts_split b.incl
    have hsplit2 := counts_split b.excl
    have hnm := nonMissingCount_append b.incl b.excl
    unfold bInv at hinv
    have hnum : ((b.incl.length + b.excl.length : ℕ) : ℤ) - (b.missing.length : ℤ) =
        (nonMissingCount (b.incl ++ b.excl) : ℤ) := by
      rw [hnm]
      omega
    rw [hnum]
    norm_num
  · have hne : criteriaFor db tid ≠ [] := by
      intro hc
      rw [hc] at hcol
      have h0 : collectGo [] (lookupFor []) pd now [] initBuckets = .ok initBuckets := rfl
      rw [h0] at hcol
      injection hcol with h0b
      rw [← h0b] at hscor
      simp [initBuckets] at hscor
    have hper := (batch_get hb hg hne).1
    have hv := perPatient_scored hpd hcol hper
    rw [hv]
    simp [scoreVerdict]

/-- Witness for C6: trial 5 has one lab inclusion with no matching
observation (missing data) and one met medication inclusion, so the
completeness ratio is the non-missing count over the scorable count. -/
theorem C6_data_completeness_witness :
    (dataCompletenessOf (wB 5 "P1")).toRat =
      (nonMissingCount ((wB 5 "P1").incl ++ (wB 5 "P1").excl) : ℚ) /
        (((wB 5 "P1").incl.length + (wB 5 "P1").excl.length : ℕ) : ℚ) ∧
    (wV 5 "P1").reasons.data_completeness = Frac.round2 (dataCompletenessOf (wB 5 "P1")) :=
  C6_data_completeness wdb wNow defaultWeights ["P1"] 5 (wRs 5 "P1") "P1" (wV 5 "P1")
    (wPd "P1") (wB 5 "P1") (by decide) (by decide) (by decide) (by decide) (by decide)

-- ── Compound AND/OR aggregation ────────────────────────────────────────

theorem mapExcept_ne_nil {α β : Type} {f : α → Except String β} {l : List α}
    {ys : List β} (hl : l ≠ []) (h : mapExcept f l = .ok ys) : ys ≠ [] := by
  cases l with
  | nil => exact absurd rfl hl
  | cons x xs =>
    unfold mapExcept at h
    cases hf : f x with
    | error e => rw [hf] at h; exact absurd h (by simp)
    | ok y =>
      rw [hf] at h
      cases hrest : mapExcept f xs with
      | error e => rw [hrest] at h; exact absurd h (by simp)
      | ok ys' =>
        rw [hrest] at h
        injection h with h
        rw [← h]
        simp

/-- C2: compound AND/OR evaluation.  With non-empty children whose
resolution yields the results `crs`: under AND the status is met iff every
child result is met and the confidence is the minimum of the children's
confidences (an element of the list that lower-bounds it) regardless of
the overall status; under OR the status is met iff some child result is
met and the confidence is the maximum; and a child id with no entry in
the criterion lookup resolves to the `missing_data` result with
confidence 0.0. -/
theorem C2_compound_evaluation (fuel : Nat) (node : CNode) (pd : PatientData)
    (lookup : Int → Option Criterion) (now : PDate) (crs : List CritResult)
    (hch : node.children ≠ [])
    (hm : mapExcept (resolveChildWith lookup (fun n => evalCompound fuel n pd lookup now)
      (fun c => evalCriterion pd c now)) node.children = .ok crs) :
    (compoundLogic node = "AND" →
      ∃ r, evalCompound (fuel + 1) node pd lookup now = .ok r ∧
        (r.status = "met" ↔ ∀ x ∈ crs, x.status = "met") ∧
        r.confidence ∈ crs.map (fun x => x.confidence) ∧
        (∀ q ∈ crs.map (fun x => x.confidence), r.confidence.toRat ≤ q.toRat)) ∧
    (compoundLogic node = "OR" →
      ∃ r, evalCompound (fuel + 1) node pd lookup now = .ok r ∧
        (r.status = "met" ↔ ∃ x ∈ crs, x.status = "met") ∧
        r.confidence ∈ crs.map (fun x => x.confidence) ∧
        (∀ q ∈ crs.map (fun x => x.confidence), q.toRat ≤ r.confidence.toRat)) ∧
    (∀ i : Int, lookup i = none →
      resolveChildWith lookup (fun n => evalCompound fuel n pd lookup now)
        (fun c => evalCriterion pd c now) (CChild.ref i) = .ok missingResult ∧
      missingResult.status = "missing_data" ∧ missingResult.confidence.toRat = 0) := by
  have hchB : ¬ (node.children.isEmpty = true) := by
    cases hc : node.children with
    | nil => exact absurd hc hch
    | cons a l => simp
  have hcrs : crs ≠ [] := mapExcept_ne_nil hch hm
  have hmapne : crs.map (fun x => x.confidence) ≠ [] := by
    cases hc : crs with
    | nil => exact absurd hc hcrs
    | cons a l => simp
  have heval : evalCompound (fuel + 1) node pd lookup now =
      .ok (combineResults (compoundLogic node) crs) := by
    unfold evalCompound
    rw [if_neg hchB, hm]
  refine ⟨?_, ?_, ?_⟩
  · intro hA
    rw [hA] at heval
    unfold combineResults at heval
    rw [if_pos rfl] at heval
    refine ⟨_, heval, ?_, ?_, ?_⟩
    · cases hall : crs.all (fun x => x.status == "met") with
      | true =>
        rw [if_pos rfl]
        rw [List.all_eq_true] at hall
        exact ⟨fun _ x hx => by simpa using hall x hx, fun _ => rfl⟩
      | false =>
        rw [if_neg (by simp)]
        constructor
        · intro hcon
          exact absurd hcon (by simp)
        · intro hx
          exfalso
          have hall2 : crs.all (fun x => x.status == "met") = true := by
            rw [List.all_eq_true]
            intro x hxm
            simpa using hx x hxm
          rw [hall2] at hall
          simp at hall
    · exact pyMinList_mem hmapne (Frac.ofInt 0)
    · exact pyMinList_le (Frac.ofInt 0)
  · intro hO
    rw [hO] at heval
    unfold combineResults at heval
    rw [if_neg (by decide), if_pos rfl] at heval
    refine ⟨_, heval, ?_, ?_, ?_⟩
    · cases hany : crs.any (fun x => x.status == "met") with
      | true =>
        rw [if_pos rfl]
        rw [List.any_eq_true] at hany
        obtain ⟨x, hx, hxs⟩ := hany
        exact ⟨fun _ => ⟨x, hx, by simpa using hxs⟩, fun _ => rfl⟩
      | false =>
        rw [if_neg (by simp)]
        constructor
        · intro hcon
          exact absurd hcon (by simp)
        · intro hx
          exfalso
          obtain ⟨x, hxm, hxs⟩ := hx
          have hany2 : crs.any (fun x => x.status == "met") = true := by
            rw [List.any_eq_true]
            exact ⟨x, hxm, by simpa using hxs⟩
          rw [hany2] at hany
          simp at hany
    · exact pyMaxList_mem hmapne (Frac.ofInt 0)
    · exact pyMaxList_ge (Frac.ofInt 0)
  · intro i hi
    refine ⟨?_, rfl, by norm_num [missingResult, Frac.toRat, Frac.ofInt]⟩
    show (match lookup i with
      | some crit =>
        match sdChildNode crit with
        | some n => evalCompound fuel n pd lookup now
        | none => evalCriterion pd crit now
      | none => Except.ok missingResult) = Except.ok missingResult
    rw [hi]

/-- Witness for C2: an AND of a met allergy criterion (confidence 0.9) and
a not-met weight criterion (confidence 0.95) yields `not_met` with
confidence 0.9 (the min, exactly the example of the claim); an OR of the
met criterion with a dangling lookup id still succeeds at confidence 0.9. -/
theorem C2_compound_evaluation_witness :
    (∃ r, evalCompound 11 wCmpNode (wPd "P1") wCmpLookup wNow = .ok r ∧
      (r.status = "met" ↔ ∀ x ∈ wCmpCrs wCmpNode, x.status = "met")) ∧
    evalCompound 11 wCmpNode (wPd "P1") wCmpLookup wNow =
      .ok ⟨none, "not_met", ⟨9, 10, by norm_num⟩, false⟩ ∧
    evalCompound 11 wCmpNodeOr (wPd "P1") wCmpLookup wNow =
      .ok ⟨none, "met", ⟨9, 10, by norm_num⟩, false⟩ := by
  refine ⟨?_, by decide, by decide⟩
  have h := (C2_compound_evaluation 10 wCmpNode (wPd "P1") wCmpLookup wNow (wCmpCrs wCmpNode)
    (List.ne_nil_of_length_pos (by decide)) (by decide)).1 (by decide)
  obtain ⟨r, hr, hiff, _, _⟩ := h
  exact ⟨r, hr, hiff⟩

-- ── Evaluator exception behaviour ──────────────────────────────────────

/-- C7, failing input: a MEDICATION criterion whose
`structured_data['value_list']` is a non-iterable JSON scalar.  The
MEDICATION branch of `_evaluate_criterion` has no `try/except`, so the
`TypeError` raised by `for d in drug_list` inside
`check_medication_criteria` propagates out of `_evaluate_criterion` and
aborts the whole `evaluate_batch` call, instead of being downgraded to a
`missing_data` result as the claim requires. -/
theorem C7_exception_propagates :
    evalCriterion (wPd "P1") wCrit71 wNow = .error "TypeError" ∧
    evaluate_batch wdb wNow defaultWeights ["P1"] 7 = .error "TypeError" :=
  ⟨by decide, by decide⟩

-- ── Calendar age ───────────────────────────────────────────────────────

/-- C8: calendar-age correctness.  `calculate_age` equals the spec's
calendar age (whole years, minus one when the (month, day) birthday has
not yet occurred in the evaluation year); in particular birthdate
1993-10-16 evaluated on 2023-10-15 gives 29, and an absent birthdate
gives `None`. -/
theorem C8_calculate_age :
    (∀ (b t : PDate), calculate_age (some b) t = some (calendarAgeSpec b t)) ∧
    calculate_age (some ⟨1993, 10, 16⟩) ⟨2023, 10, 15⟩ = some 29 ∧
    (∀ t : PDate, calculate_age none t = none) := by
  refine ⟨?_, by decide, fun t => rfl⟩
  intro b t
  unfold calculate_age calendarAgeSpec
  show some (t.y - b.y - (if beforeBirthday t b then 1 else 0)) =
    some ((t.y - b.y) - (if t.m < b.m ∨ (t.m = b.m ∧ t.d < b.d) then 1 else 0))
  have hiff : beforeBirthday t b = true ↔ (t.m < b.m ∨ (t.m = b.m ∧ t.d < b.d)) := by
    unfold beforeBirthday
    rw [Bool.or_eq_true_iff, Bool.and_eq_true_iff]
    constructor
    · rintro (h | ⟨h1, h2⟩)
      · exact Or.inl (by simpa using h)
      · exact Or.inr ⟨by simpa using h1, by simpa using h2⟩
    · rintro (h | ⟨h1, h2⟩)
      · exact Or.inl (by simpa using h)
      · exact Or.inr ⟨by simpa using h1, by simpa using h2⟩
  by_cases h : t.m < b.m ∨ (t.m = b.m ∧ t.d < b.d)
  · rw [if_pos (hiff.mpr h), if_pos h]
  · have hb : beforeBirthday t b = false := by
      cases hx : beforeBirthday t b with
      | true => exact absurd (hiff.mp hx) h
      | false => rfl
    rw [hb, if_neg h]
    rfl

-- ── Implicit medication edge case ──────────────────────────────────────

/-- C10: a MEDICATION / MEDICATION_HISTORY / DRUG criterion that is not a
vague exclusion and carries neither a drug name nor a (truthy) value list
evaluates to met with confidence 0.85 when not negated and to not_met
with confidence 0.85 when negated (via `structured_data.negated` or
`operator = NO`): an empty drug target is treated as trivially present. -/
theorem C10_medication_empty_target (pd : PatientData) (c : Criterion) (now : PDate)
    (hcat : strUpper (pyOrD c.category "") = "MEDICATION" ∨
      strUpper (pyOrD c.category "") = "MEDICATION_HISTORY" ∨
      strUpper (pyOrD c.category "") = "DRUG")
    (hvague : isVagueExclusion c.text = false)
    (hval : truthyS c.value = false)
    (hlist : truthyPL (sdOf c).value_list = false) :
    evalCriterion pd c now = .ok ⟨some c.id,
      if (sdOf c).negated || strUpper (pyOrD c.operator "") == "NO" then "not_met" else "met",
      ⟨17, 20, by norm_num⟩, false⟩ := by
  have hmed : evalCriterion pd c now = evalMedication pd c := by
    unfold evalCriterion
    rcases hcat with h | h | h <;> rw [h] <;> rfl
  rw [hmed]
  unfold evalMedication
  rw [if_neg (by simp [hvague])]
  rw [if_neg (by simp [hlist] : ¬ (truthyPL (sdOf c).value_list = true))]
  unfold check_medication_criteria
  rw [if_pos (by simp [hval, hlist])]
  cases hneg : ((sdOf c).negated || strUpper (pyOrD c.operator "") == "NO") with
  | true => rfl
  | false => rfl

/-- Witness for C10: the negated (operator NO) variant gives not_met at
0.85, the plain variant met at 0.85. -/
theorem C10_medication_empty_target_witness :
    evalCriterion (wPd "P1") wMedNo wNow =
      .ok ⟨some 111, "not_met", ⟨17, 20, by norm_num⟩, false⟩ ∧
    evalCriterion (wPd "P1") wMedPlain wNow =
      .ok ⟨some 112, "met", ⟨17, 20, by norm_num⟩, false⟩ := by
  constructor
  · have h := C10_medication_empty_target (wPd "P1") wMedNo wNow (Or.inl (by decide))
      (by decide) (by decide) (by decide)
    rw [h]
    decide
  · have h := C10_medication_empty_target (wPd "P1") wMedPlain wNow (Or.inl (by decide))
      (by decide) (by decide) (by decide)
    rw [h]
    decide
